import Mathlib

/-!
# SAT configuration resolution (`sat/sat_config.cpp`)

A shallow embedding of `sat::config::config` and `sat::config::updt_params`.

* `symbol` values are modelled by `String` (symbol equality is equality of the
  interned string, hence case-sensitive).
* `unsigned` / `size_t` values are modelled by `Nat`; the function performs no
  arithmetic on them besides `std::min(255u, _)` and the comparisons `== 0`, `== 1`.
* `double` values are only copied, never computed with or compared; a `double` is
  modelled by the rational number denoted by its literal.
* `updt_params` mutates `*this` and may throw: a statement is a function from
  the configuration before it to an `outcome`, which is either a normal return
  or a thrown exception, each with the configuration as it stands at that
  moment. The body of `updt_params` is the `block` of its statements in source
  order.
-/

namespace sat

/-- The `symbol` type of option values: an interned string. -/
abbrev symbol := String

/-- The C++ `double` type, used here only as a carrier of copied values. -/
abbrev double := ℚ

/-- Modelled from the spec: the enumeration `restart_strategy` of `sat_config.h`
(restart policy variant ∈ {Luby, Geometric}). -/
inductive restart_strategy where
  | RS_GEOMETRIC
  | RS_LUBY
  deriving DecidableEq, Repr

/-- Modelled from the spec: the enumeration `phase_selection` of `sat_config.h`
(phase-saving variant ∈ {AlwaysFalse, AlwaysTrue, Caching, Random}). -/
inductive phase_selection where
  | PS_ALWAYS_TRUE
  | PS_ALWAYS_FALSE
  | PS_CACHING
  | PS_RANDOM
  deriving DecidableEq, Repr

/-- Modelled from the spec: the enumeration `gc_strategy` of `sat_config.h`
(strategy variant ∈ {DynPSM, GluePSM, Glue, PSM, PSMGlue}). -/
inductive gc_strategy where
  | GC_DYN_PSM
  | GC_PSM
  | GC_GLUE
  | GC_GLUE_PSM
  | GC_PSM_GLUE
  deriving DecidableEq, Repr

/-- Modelled from the spec: the enumeration `branching_heuristic` of `sat_config.h`
(variant ∈ {VSIDS, CHB, LRB}). -/
inductive branching_heuristic where
  | BH_VSIDS
  | BH_CHB
  | BH_LRB
  deriving DecidableEq, Repr

/-- Modelled from the spec: the enumeration `pb_solver` of `sat_config.h`
(pseudo-boolean encoding variant ∈ {Circuit, Sorting, Totalizer, Solver}). -/
inductive pb_solver where
  | PB_SOLVER
  | PB_CIRCUIT
  | PB_SORTING
  | PB_TOTALIZER
  deriving DecidableEq, Repr

/-- Modelled from the spec: the enumeration `reward_t` of `sat_config.h`
(reward variant ∈ {HeuleSchur, HeuleUnit, Ternary, UnitLiteral, MarchCU}). -/
inductive reward_t where
  | ternary_reward
  | unit_literal_reward
  | heule_schur_reward
  | heule_unit_reward
  | march_cu_reward
  deriving DecidableEq, Repr

open restart_strategy phase_selection gc_strategy branching_heuristic pb_solver reward_t

/-- The exception thrown by `updt_params`; it carries its message. -/
structure sat_param_exception where
  msg : String
  deriving DecidableEq, Repr

/-- Modelled from the spec: a value stored in the generic parameter container
("stores arbitrary named values by string key with typed getters and defaults"). -/
inductive param_value where
  | uint_value (v : Nat)
  | double_value (v : double)
  | bool_value (v : Bool)
  | sym_value (v : symbol)
  deriving DecidableEq, Repr

/-- The values returned by the typed accessors of the view `sat_params p(_p)`
(generated class, not part of the sources at hand): one field per accessor
called by `updt_params`. -/
structure sat_params where
  max_memory : Nat
  restart : symbol
  phase : symbol
  phase_caching_on : Nat
  phase_caching_off : Nat
  restart_initial : Nat
  restart_factor : double
  restart_max : Nat
  inprocess_max : Nat
  random_freq : double
  random_seed : Nat
  burst_search : Nat
  max_conflicts : Nat
  threads : Nat
  local_search : Bool
  local_search_threads : Nat
  lookahead_simplify : Bool
  lookahead_simplify_bca : Bool
  lookahead_reward : symbol
  lookahead_cube_fraction : double
  lookahead_cube_cutoff : Nat
  lookahead_global_autarky : Bool
  gc : symbol
  gc_initial : Nat
  gc_increment : Nat
  gc_small_lbd : Nat
  gc_k : Nat
  minimize_lemmas : Bool
  core_minimize : Bool
  core_minimize_partial : Bool
  drat_check_unsat : Bool
  drat_check_sat : Bool
  drat_file : symbol
  dyn_sub_res : Bool
  branching_heuristic : symbol
  branching_anti_exploration : Bool
  variable_decay : Nat
  pb_solver : symbol

/-- The value returned by the typed accessor of the view
`sat_simplifier_params sp(_p)` (generated class, not part of the sources at hand). -/
structure sat_simplifier_params where
  elim_vars : Bool

/-- The parameter source `params_ref`. Its raw entries are modelled from the spec
(a key-value store); the two typed views built over it by `updt_params` are
generated code outside the sources at hand, so the values their accessors
return are taken as part of the input. -/
structure params_ref where
  entries : List (String × param_value)
  sat : sat_params
  sat_simplifier : sat_simplifier_params

/-- Modelled from the spec: the unsigned value the key-value store holds under the
key `k`, if any (the first entry stored under `k` as an unsigned value). -/
def stored_uint : List (String × param_value) → String → Option Nat
  | [], _ => none
  | (k', param_value.uint_value v) :: rest, k =>
      if k' = k then some v else stored_uint rest k
  | _ :: rest, k => stored_uint rest k

/-- Modelled from the spec: the double value the key-value store holds under the
key `k`, if any (the first entry stored under `k` as a double value). -/
def stored_double : List (String × param_value) → String → Option double
  | [], _ => none
  | (k', param_value.double_value v) :: rest, k =>
      if k' = k then some v else stored_double rest k
  | _ :: rest, k => stored_double rest k

/-- Modelled from the spec: `params_ref::get_uint(k, _default)`, the raw lookup
"by raw name with an explicit caller-supplied default": the stored value when
the key is present, `_default` when it is absent. -/
def params_ref.get_uint (_p : params_ref) (k : String) (_default : Nat) : Nat :=
  match stored_uint _p.entries k with
  | some v => v
  | none => _default

/-- Modelled from the spec: `params_ref::get_double(k, _default)`, the raw lookup
"by raw name with an explicit caller-supplied default": the stored value when
the key is present, `_default` when it is absent. -/
def params_ref.get_double (_p : params_ref) (k : String) (_default : double) : double :=
  match stored_double _p.entries k with
  | some v => v
  | none => _default

/-- The configuration record `sat::config` (the fields written by the constructor
and by `updt_params`). -/
structure config where
  m_max_memory : Nat
  m_restart : restart_strategy
  m_phase : phase_selection
  m_phase_caching_on : Nat
  m_phase_caching_off : Nat
  m_restart_initial : Nat
  m_restart_factor : double
  m_restart_max : Nat
  m_inprocess_max : Nat
  m_random_freq : double
  m_random_seed : Nat
  m_burst_search : Nat
  m_max_conflicts : Nat
  m_num_threads : Nat
  m_local_search : Bool
  m_local_search_threads : Nat
  m_lookahead_simplify : Bool
  m_lookahead_simplify_bca : Bool
  m_lookahead_reward : reward_t
  m_lookahead_cube_fraction : double
  m_lookahead_cube_cutoff : Nat
  m_lookahead_global_autarky : Bool
  m_simplify_mult1 : Nat
  m_simplify_mult2 : double
  m_simplify_max : Nat
  m_gc_strategy : gc_strategy
  m_gc_initial : Nat
  m_gc_increment : Nat
  m_gc_small_lbd : Nat
  m_gc_k : Nat
  m_minimize_lemmas : Bool
  m_core_minimize : Bool
  m_core_minimize_partial : Bool
  m_drat_check_unsat : Bool
  m_drat_check_sat : Bool
  m_drat_file : symbol
  m_drat : Bool
  m_dyn_sub_res : Bool
  m_branching_heuristic : branching_heuristic
  m_anti_exploration : Bool
  m_step_size_init : double
  m_step_size_dec : double
  m_step_size_min : double
  m_reward_multiplier : double
  m_reward_offset : double
  m_variable_decay : Nat
  m_pb_solver : pb_solver
  m_elim_vars : Bool
  m_incremental : Bool

/-- The result of running code that mutates a `config` in place and may throw a
`sat_param_exception`: the configuration as it stands at the normal return, or
the exception together with the configuration as it stands at the throw. -/
inductive outcome where
  | returned (c : config)
  | thrown (e : sat_param_exception) (c : config)

/-- The configuration an outcome leaves behind. -/
def outcome.state : outcome → config
  | outcome.returned c => c
  | outcome.thrown _ c => c

/-- The exception an outcome carries, if any. -/
def outcome.exception : outcome → Option sat_param_exception
  | outcome.returned _ => none
  | outcome.thrown e _ => some e

/-- Whether the call returned normally. -/
def outcome.succeeds (o : outcome) : Bool :=
  o.exception.isNone

/-- A statement of a member function of `config`. -/
abbrev stmt := config → outcome

/-- An assignment to fields of `*this`. -/
def assign (f : config → config) : stmt :=
  fun c => outcome.returned (f c)

/-- The statement `throw sat_param_exception(msg)`. -/
def throw_exception (msg : String) : stmt :=
  fun c => outcome.thrown ⟨msg⟩ c

/-- Sequential execution: a thrown exception abandons the remaining statements
and leaves the configuration as it is. -/
def block : List stmt → stmt
  | [], c => outcome.returned c
  | s :: rest, c =>
    match s c with
    | outcome.returned c' => block rest c'
    | outcome.thrown e c' => outcome.thrown e c'

/-- The body of `config::updt_params(params_ref const & _p)`, statement by
statement. `megabytes_to_bytes` is the memory-unit conversion utility (not part
of the sources at hand), taken as a parameter. -/
def updt_params (megabytes_to_bytes : Nat → Nat) (_p : params_ref) : stmt :=
  let p := _p.sat
  let sp := _p.sat_simplifier
  block [
    (assign fun c => { c with m_max_memory := megabytes_to_bytes p.max_memory }),

    (if p.restart = "luby" then
      assign fun c => { c with m_restart := RS_LUBY }
    else if p.restart = "geometric" then
      assign fun c => { c with m_restart := RS_GEOMETRIC }
    else
      throw_exception "invalid restart strategy"),

    (if p.phase = "always_false" then
      assign fun c => { c with m_phase := PS_ALWAYS_FALSE }
    else if p.phase = "always_true" then
      assign fun c => { c with m_phase := PS_ALWAYS_TRUE }
    else if p.phase = "caching" then
      assign fun c => { c with m_phase := PS_CACHING }
    else if p.phase = "random" then
      assign fun c => { c with m_phase := PS_RANDOM }
    else
      throw_exception "invalid phase selection strategy"),

    (assign fun c => { c with m_phase_caching_on := p.phase_caching_on }),
    (assign fun c => { c with m_phase_caching_off := p.phase_caching_off }),

    (assign fun c => { c with m_restart_initial := p.restart_initial }),
    (assign fun c => { c with m_restart_factor := p.restart_factor }),
    (assign fun c => { c with m_restart_max := p.restart_max }),
    (assign fun c => { c with m_inprocess_max := p.inprocess_max }),

    (assign fun c => { c with m_random_freq := p.random_freq }),
    (assign fun c => { c with m_random_seed := p.random_seed }),
    (fun c =>
      if c.m_random_seed = 0 then
        assign (fun c => { c with m_random_seed := _p.get_uint "random_seed" 0 }) c
      else
        outcome.returned c),

    (assign fun c => { c with m_burst_search := p.burst_search }),

    (assign fun c => { c with m_max_conflicts := p.max_conflicts }),
    (assign fun c => { c with m_num_threads := p.threads }),
    (assign fun c => { c with m_local_search := p.local_search }),
    (assign fun c => { c with m_local_search_threads := p.local_search_threads }),
    (assign fun c => { c with m_lookahead_simplify := p.lookahead_simplify }),
    (assign fun c => { c with m_lookahead_simplify_bca := p.lookahead_simplify_bca }),
    (if p.lookahead_reward = "heule_schur" then
      assign fun c => { c with m_lookahead_reward := heule_schur_reward }
    else if p.lookahead_reward = "heuleu" then
      assign fun c => { c with m_lookahead_reward := heule_unit_reward }
    else if p.lookahead_reward = "ternary" then
      assign fun c => { c with m_lookahead_reward := ternary_reward }
    else if p.lookahead_reward = "unit" then
      assign fun c => { c with m_lookahead_reward := unit_literal_reward }
    else if p.lookahead_reward = "march_cu" then
      assign fun c => { c with m_lookahead_reward := march_cu_reward }
    else
      throw_exception "invalid reward type supplied: accepted heuristics are 'ternary', 'heuleu', 'unit' or 'heule_schur'"),

    (assign fun c => { c with m_lookahead_cube_fraction := p.lookahead_cube_fraction }),
    (assign fun c => { c with m_lookahead_cube_cutoff := p.lookahead_cube_cutoff }),
    (assign fun c => { c with m_lookahead_global_autarky := p.lookahead_global_autarky }),

    -- These parameters are not exposed
    (assign fun c => { c with m_simplify_mult1 := _p.get_uint "simplify_mult1" 300 }),
    (assign fun c => { c with m_simplify_mult2 := _p.get_double "simplify_mult2" 1.5 }),
    (assign fun c => { c with m_simplify_max := _p.get_uint "simplify_max" 500000 }),
    -- --------------------------------

    (if p.gc = "dyn_psm" then
      assign fun c => { c with m_gc_strategy := GC_DYN_PSM }
    else if p.gc = "glue_psm" then
      assign fun c => { c with m_gc_strategy := GC_GLUE_PSM }
    else if p.gc = "glue" then
      assign fun c => { c with m_gc_strategy := GC_GLUE }
    else if p.gc = "psm" then
      assign fun c => { c with m_gc_strategy := GC_PSM }
    else if p.gc = "psm_glue" then
      assign fun c => { c with m_gc_strategy := GC_PSM_GLUE }
    else
      throw_exception "invalid gc strategy"),
    (assign fun c => { c with m_gc_initial := p.gc_initial }),
    (assign fun c => { c with m_gc_increment := p.gc_increment }),
    (assign fun c => { c with m_gc_small_lbd := p.gc_small_lbd }),
    (assign fun c => { c with m_gc_k := min 255 p.gc_k }),

    (assign fun c => { c with m_minimize_lemmas := p.minimize_lemmas }),
    (assign fun c => { c with m_core_minimize := p.core_minimize }),
    (assign fun c => { c with m_core_minimize_partial := p.core_minimize_partial }),
    (assign fun c => { c with m_drat_check_unsat := p.drat_check_unsat }),
    (assign fun c => { c with m_drat_check_sat := p.drat_check_sat }),
    (assign fun c => { c with m_drat_file := p.drat_file }),
    (assign fun c => { c with m_drat :=
      (c.m_drat_check_unsat || c.m_drat_file != "" || c.m_drat_check_sat) && p.threads == 1 }),
    (assign fun c => { c with m_dyn_sub_res := p.dyn_sub_res }),

    -- Parameters used in Liang, Ganesh, Poupart, Czarnecki AAAI 2016.
    (assign fun c => { c with m_branching_heuristic := BH_VSIDS }),
    (if p.branching_heuristic = "vsids" then
      assign fun c => { c with m_branching_heuristic := BH_VSIDS }
    else if p.branching_heuristic = "chb" then
      assign fun c => { c with m_branching_heuristic := BH_CHB }
    else if p.branching_heuristic = "lrb" then
      assign fun c => { c with m_branching_heuristic := BH_LRB }
    else
      throw_exception "invalid branching heuristic: accepted heuristics are 'vsids', 'lrb' or 'chb'"),

    (assign fun c => { c with m_anti_exploration := p.branching_anti_exploration }),
    (assign fun c => { c with m_step_size_init := 0.40 }),
    (assign fun c => { c with m_step_size_dec := 0.000001 }),
    (assign fun c => { c with m_step_size_min := 0.06 }),
    (assign fun c => { c with m_reward_multiplier := 0.9 }),
    (assign fun c => { c with m_reward_offset := 1000000.0 }),

    (assign fun c => { c with m_variable_decay := p.variable_decay }),

    -- PB parameters
    (if p.pb_solver = "circuit" then
      assign fun c => { c with m_pb_solver := PB_CIRCUIT }
    else if p.pb_solver = "sorting" then
      assign fun c => { c with m_pb_solver := PB_SORTING }
    else if p.pb_solver = "totalizer" then
      assign fun c => { c with m_pb_solver := PB_TOTALIZER }
    else if p.pb_solver = "solver" then
      assign fun c => { c with m_pb_solver := PB_SOLVER }
    else
      throw_exception "invalid PB solver: solver, totalizer, circuit, sorting"),

    (assign fun c => { c with m_elim_vars := sp.elim_vars })
  ]

/-- The constructor `config::config(params_ref const & p)`, run on the object's
storage as it is before construction. -/
def config_ctor (megabytes_to_bytes : Nat → Nat) (p : params_ref) : stmt :=
  block [
    (assign fun c => { c with m_incremental := false }), -- ad-hoc parameter
    (updt_params megabytes_to_bytes p)
  ]

/-! ## The vocabularies of the six enumerated options, as the specification lists them -/

/-- Accepted tokens of `restart`. -/
def restart_tokens : List symbol := ["luby", "geometric"]

/-- Accepted tokens of `phase`. -/
def phase_tokens : List symbol := ["always_false", "always_true", "caching", "random"]

/-- Accepted tokens of `lookahead_reward`. -/
def lookahead_reward_tokens : List symbol :=
  ["heule_schur", "heuleu", "ternary", "unit", "march_cu"]

/-- Accepted tokens of `gc`. -/
def gc_tokens : List symbol := ["dyn_psm", "glue_psm", "glue", "psm", "psm_glue"]

/-- Accepted tokens of `branching_heuristic`. -/
def branching_heuristic_tokens : List symbol := ["vsids", "chb", "lrb"]

/-- Accepted tokens of `pb_solver`. -/
def pb_solver_tokens : List symbol := ["circuit", "sorting", "totalizer", "solver"]

/-- The token-to-variant table of `restart`, as the specification states it. -/
def restart_of_token (s : symbol) : Option restart_strategy :=
  if s = "luby" then some RS_LUBY
  else if s = "geometric" then some RS_GEOMETRIC
  else none

/-- The token-to-variant table of `phase`, as the specification states it. -/
def phase_of_token (s : symbol) : Option phase_selection :=
  if s = "always_false" then some PS_ALWAYS_FALSE
  else if s = "always_true" then some PS_ALWAYS_TRUE
  else if s = "caching" then some PS_CACHING
  else if s = "random" then some PS_RANDOM
  else none

/-- The token-to-variant table of `lookahead_reward`, as the specification states it. -/
def reward_of_token (s : symbol) : Option reward_t :=
  if s = "heule_schur" then some heule_schur_reward
  else if s = "heuleu" then some heule_unit_reward
  else if s = "ternary" then some ternary_reward
  else if s = "unit" then some unit_literal_reward
  else if s = "march_cu" then some march_cu_reward
  else none

/-- The token-to-variant table of `gc`, as the specification states it. -/
def gc_of_token (s : symbol) : Option gc_strategy :=
  if s = "dyn_psm" then some GC_DYN_PSM
  else if s = "glue_psm" then some GC_GLUE_PSM
  else if s = "glue" then some GC_GLUE
  else if s = "psm" then some GC_PSM
  else if s = "psm_glue" then some GC_PSM_GLUE
  else none

/-- The token-to-variant table of `branching_heuristic`, as the specification states it. -/
def branching_of_token (s : symbol) : Option branching_heuristic :=
  if s = "vsids" then some BH_VSIDS
  else if s = "chb" then some BH_CHB
  else if s = "lrb" then some BH_LRB
  else none

/-- The token-to-variant table of `pb_solver`, as the specification states it. -/
def pb_of_token (s : symbol) : Option pb_solver :=
  if s = "circuit" then some PB_CIRCUIT
  else if s = "sorting" then some PB_SORTING
  else if s = "totalizer" then some PB_TOTALIZER
  else if s = "solver" then some PB_SOLVER
  else none

/-! ## The configuration at each point where `updt_params` can stop -/

/-- The configuration when the `restart` check is reached (source line 36). -/
def at_restart (megabytes_to_bytes : Nat → Nat) (_p : params_ref) (c : config) : config :=
  { c with m_max_memory := megabytes_to_bytes _p.sat.max_memory }

/-- The configuration when the `phase` check is reached (source line 44),
`restart` having resolved to `r`. -/
def at_phase (megabytes_to_bytes : Nat → Nat) (_p : params_ref) (c : config)
    (r : restart_strategy) : config :=
  { at_restart megabytes_to_bytes _p c with m_restart := r }

/-- The random seed stored by source lines 65-67. -/
def resolved_random_seed (_p : params_ref) : Nat :=
  if _p.sat.random_seed = 0 then _p.get_uint "random_seed" 0 else _p.sat.random_seed

/-- The configuration when the `lookahead_reward` check is reached (source line 77),
`phase` having resolved to `ph`. -/
def at_lookahead_reward (megabytes_to_bytes : Nat → Nat) (_p : params_ref) (c : config)
    (r : restart_strategy) (ph : phase_selection) : config :=
  { at_phase megabytes_to_bytes _p c r with
    m_phase := ph
    m_phase_caching_on := _p.sat.phase_caching_on
    m_phase_caching_off := _p.sat.phase_caching_off
    m_restart_initial := _p.sat.restart_initial
    m_restart_factor := _p.sat.restart_factor
    m_restart_max := _p.sat.restart_max
    m_inprocess_max := _p.sat.inprocess_max
    m_random_freq := _p.sat.random_freq
    m_random_seed := resolved_random_seed _p
    m_burst_search := _p.sat.burst_search
    m_max_conflicts := _p.sat.max_conflicts
    m_num_threads := _p.sat.threads
    m_local_search := _p.sat.local_search
    m_local_search_threads := _p.sat.local_search_threads
    m_lookahead_simplify := _p.sat.lookahead_simplify
    m_lookahead_simplify_bca := _p.sat.lookahead_simplify_bca }

/-- The configuration when the `gc` check is reached (source line 100),
`lookahead_reward` having resolved to `rw`. -/
def at_gc (megabytes_to_bytes : Nat → Nat) (_p : params_ref) (c : config)
    (r : restart_strategy) (ph : phase_selection) (rw : reward_t) : config :=
  { at_lookahead_reward megabytes_to_bytes _p c r ph with
    m_lookahead_reward := rw
    m_lookahead_cube_fraction := _p.sat.lookahead_cube_fraction
    m_lookahead_cube_cutoff := _p.sat.lookahead_cube_cutoff
    m_lookahead_global_autarky := _p.sat.lookahead_global_autarky
    m_simplify_mult1 := _p.get_uint "simplify_mult1" 300
    m_simplify_mult2 := _p.get_double "simplify_mult2" 1.5
    m_simplify_max := _p.get_uint "simplify_max" 500000 }

/-- The configuration when the `branching_heuristic` check has been reached and
the field pre-assigned (source line 128), `gc` having resolved to `g`. -/
def at_branching_heuristic (megabytes_to_bytes : Nat → Nat) (_p : params_ref) (c : config)
    (r : restart_strategy) (ph : phase_selection) (rw : reward_t) (g : gc_strategy) : config :=
  { at_gc megabytes_to_bytes _p c r ph rw with
    m_gc_strategy := g
    m_gc_initial := _p.sat.gc_initial
    m_gc_increment := _p.sat.gc_increment
    m_gc_small_lbd := _p.sat.gc_small_lbd
    m_gc_k := min 255 _p.sat.gc_k
    m_minimize_lemmas := _p.sat.minimize_lemmas
    m_core_minimize := _p.sat.core_minimize
    m_core_minimize_partial := _p.sat.core_minimize_partial
    m_drat_check_unsat := _p.sat.drat_check_unsat
    m_drat_check_sat := _p.sat.drat_check_sat
    m_drat_file := _p.sat.drat_file
    m_drat := (_p.sat.drat_check_unsat || _p.sat.drat_file != "" || _p.sat.drat_check_sat)
                && _p.sat.threads == 1
    m_dyn_sub_res := _p.sat.dyn_sub_res
    m_branching_heuristic := BH_VSIDS }

/-- The configuration when the `pb_solver` check is reached (source line 148),
`branching_heuristic` having resolved to `b`. -/
def at_pb_solver (megabytes_to_bytes : Nat → Nat) (_p : params_ref) (c : config)
    (r : restart_strategy) (ph : phase_selection) (rw : reward_t) (g : gc_strategy)
    (b : branching_heuristic) : config :=
  { at_branching_heuristic megabytes_to_bytes _p c r ph rw g with
    m_branching_heuristic := b
    m_anti_exploration := _p.sat.branching_anti_exploration
    m_step_size_init := 0.40
    m_step_size_dec := 0.000001
    m_step_size_min := 0.06
    m_reward_multiplier := 0.9
    m_reward_offset := 1000000.0
    m_variable_decay := _p.sat.variable_decay }

/-- The configuration at the normal return (source line 162), `pb_solver` having
resolved to `pb`. -/
def at_return (megabytes_to_bytes : Nat → Nat) (_p : params_ref) (c : config)
    (r : restart_strategy) (ph : phase_selection) (rw : reward_t) (g : gc_strategy)
    (b : branching_heuristic) (pb : pb_solver) : config :=
  { at_pb_solver megabytes_to_bytes _p c r ph rw g b with
    m_pb_solver := pb
    m_elim_vars := _p.sat_simplifier.elim_vars }

/-- The outcome of `updt_params` written as a decision over the six token
tables: it stops at the first option whose token is in no table. -/
def resolve (megabytes_to_bytes : Nat → Nat) (_p : params_ref) (c : config) : outcome :=
  match restart_of_token _p.sat.restart with
  | none => outcome.thrown ⟨"invalid restart strategy"⟩ (at_restart megabytes_to_bytes _p c)
  | some r =>
  match phase_of_token _p.sat.phase with
  | none =>
    outcome.thrown ⟨"invalid phase selection strategy"⟩ (at_phase megabytes_to_bytes _p c r)
  | some ph =>
  match reward_of_token _p.sat.lookahead_reward with
  | none =>
    outcome.thrown
      ⟨"invalid reward type supplied: accepted heuristics are 'ternary', 'heuleu', 'unit' or 'heule_schur'"⟩
      (at_lookahead_reward megabytes_to_bytes _p c r ph)
  | some rw =>
  match gc_of_token _p.sat.gc with
  | none => outcome.thrown ⟨"invalid gc strategy"⟩ (at_gc megabytes_to_bytes _p c r ph rw)
  | some g =>
  match branching_of_token _p.sat.branching_heuristic with
  | none =>
    outcome.thrown
      ⟨"invalid branching heuristic: accepted heuristics are 'vsids', 'lrb' or 'chb'"⟩
      (at_branching_heuristic megabytes_to_bytes _p c r ph rw g)
  | some b =>
  match pb_of_token _p.sat.pb_solver with
  | none =>
    outcome.thrown ⟨"invalid PB solver: solver, totalizer, circuit, sorting"⟩
      (at_pb_solver megabytes_to_bytes _p c r ph rw g b)
  | some pb => outcome.returned (at_return megabytes_to_bytes _p c r ph rw g b pb)

/-- The token that selects a restart variant. -/
def token_of_restart : restart_strategy → symbol
  | RS_LUBY => "luby"
  | RS_GEOMETRIC => "geometric"

/-- The token that selects a phase variant. -/
def token_of_phase : phase_selection → symbol
  | PS_ALWAYS_FALSE => "always_false"
  | PS_ALWAYS_TRUE => "always_true"
  | PS_CACHING => "caching"
  | PS_RANDOM => "random"

/-- The token that selects a reward variant. -/
def token_of_reward : reward_t → symbol
  | heule_schur_reward => "heule_schur"
  | heule_unit_reward => "heuleu"
  | ternary_reward => "ternary"
  | unit_literal_reward => "unit"
  | march_cu_reward => "march_cu"

/-- The token that selects a garbage-collection variant. -/
def token_of_gc : gc_strategy → symbol
  | GC_DYN_PSM => "dyn_psm"
  | GC_GLUE_PSM => "glue_psm"
  | GC_GLUE => "glue"
  | GC_PSM => "psm"
  | GC_PSM_GLUE => "psm_glue"

/-- The token that selects a branching variant. -/
def token_of_branching : branching_heuristic → symbol
  | BH_VSIDS => "vsids"
  | BH_CHB => "chb"
  | BH_LRB => "lrb"

/-- The token that selects a pseudo-boolean encoding variant. -/
def token_of_pb : pb_solver → symbol
  | PB_CIRCUIT => "circuit"
  | PB_SORTING => "sorting"
  | PB_TOTALIZER => "totalizer"
  | PB_SOLVER => "solver"

/-- The message of the exception an outcome carries (empty when there is none). -/
def outcome.message (o : outcome) : String :=
  match o.exception with
  | some e => e.msg
  | none => ""

/-- All six enumerated options hold a token of their vocabulary. -/
def accepted (p : sat_params) : Prop :=
  p.restart ∈ restart_tokens ∧ p.phase ∈ phase_tokens ∧
  p.lookahead_reward ∈ lookahead_reward_tokens ∧ p.gc ∈ gc_tokens ∧
  p.branching_heuristic ∈ branching_heuristic_tokens ∧ p.pb_solver ∈ pb_solver_tokens

instance (p : sat_params) : Decidable (accepted p) := by
  unfold accepted
  infer_instance

/-- Two typed views give the same value to each of the six enumerated options. -/
def same_enumerated (p q : sat_params) : Prop :=
  p.restart = q.restart ∧ p.phase = q.phase ∧ p.lookahead_reward = q.lookahead_reward ∧
  p.gc = q.gc ∧ p.branching_heuristic = q.branching_heuristic ∧ p.pb_solver = q.pb_solver

/-- Whether the text `tok` occurs in the text `msg`. -/
def occurs_in (tok msg : String) : Bool :=
  msg.toList.tails.any fun t => tok.toList.isPrefixOf t

/-! ## Concrete inputs -/

/-- A memory-unit conversion to run the code with. -/
def example_megabytes_to_bytes (mb : Nat) : Nat := mb * 1024 * 1024

/-- The typed option values of the specification's scenario: `restart=geometric`,
`phase=caching`, `gc=glue`, `lookahead_reward=unit`, `branching_heuristic=lrb`,
`pb_solver=sorting`, `threads=1`, `drat_check_unsat=true`. -/
def scenario_sat_params : sat_params :=
  { max_memory := 4096
    restart := "geometric"
    phase := "caching"
    phase_caching_on := 400
    phase_caching_off := 100
    restart_initial := 100
    restart_factor := 1.5
    restart_max := 4294967295
    inprocess_max := 4294967295
    random_freq := 0.01
    random_seed := 0
    burst_search := 100
    max_conflicts := 4294967295
    threads := 1
    local_search := false
    local_search_threads := 0
    lookahead_simplify := false
    lookahead_simplify_bca := true
    lookahead_reward := "unit"
    lookahead_cube_fraction := 0.4
    lookahead_cube_cutoff := 10
    lookahead_global_autarky := false
    gc := "glue"
    gc_initial := 20000
    gc_increment := 500
    gc_small_lbd := 3
    gc_k := 7
    minimize_lemmas := true
    core_minimize := false
    core_minimize_partial := false
    drat_check_unsat := true
    drat_check_sat := false
    drat_file := ""
    dyn_sub_res := true
    branching_heuristic := "lrb"
    branching_anti_exploration := false
    variable_decay := 110
    pb_solver := "sorting" }

/-- The scenario's parameter source, with no raw entry. -/
def scenario_params : params_ref :=
  { entries := []
    sat := scenario_sat_params
    sat_simplifier := { elim_vars := true } }

/-- A configuration to run `updt_params` on: some state left by earlier code. -/
def prior_config : config :=
  { m_max_memory := 0
    m_restart := RS_LUBY
    m_phase := PS_ALWAYS_FALSE
    m_phase_caching_on := 0
    m_phase_caching_off := 0
    m_restart_initial := 0
    m_restart_factor := 0
    m_restart_max := 0
    m_inprocess_max := 0
    m_random_freq := 0
    m_random_seed := 0
    m_burst_search := 0
    m_max_conflicts := 0
    m_num_threads := 0
    m_local_search := false
    m_local_search_threads := 0
    m_lookahead_simplify := false
    m_lookahead_simplify_bca := false
    m_lookahead_reward := ternary_reward
    m_lookahead_cube_fraction := 0
    m_lookahead_cube_cutoff := 0
    m_lookahead_global_autarky := false
    m_simplify_mult1 := 0
    m_simplify_mult2 := 0
    m_simplify_max := 0
    m_gc_strategy := GC_PSM
    m_gc_initial := 0
    m_gc_increment := 0
    m_gc_small_lbd := 0
    m_gc_k := 0
    m_minimize_lemmas := false
    m_core_minimize := false
    m_core_minimize_partial := false
    m_drat_check_unsat := false
    m_drat_check_sat := false
    m_drat_file := ""
    m_drat := false
    m_dyn_sub_res := false
    m_branching_heuristic := BH_CHB
    m_anti_exploration := false
    m_step_size_init := 0
    m_step_size_dec := 0
    m_step_size_min := 0
    m_reward_multiplier := 0
    m_reward_offset := 0
    m_variable_decay := 0
    m_pb_solver := PB_SOLVER
    m_elim_vars := false
    m_incremental := true }

/-- The scenario with the `restart` token replaced by `s`. -/
def scenario_with_restart (s : symbol) : params_ref :=
  { scenario_params with sat := { scenario_sat_params with restart := s } }

/-- The scenario with the `lookahead_reward` token replaced by `s`. -/
def scenario_with_lookahead_reward (s : symbol) : params_ref :=
  { scenario_params with sat := { scenario_sat_params with lookahead_reward := s } }

/-- The scenario with the `branching_heuristic` token replaced by `s`. -/
def scenario_with_branching_heuristic (s : symbol) : params_ref :=
  { scenario_params with sat := { scenario_sat_params with branching_heuristic := s } }

/-- The scenario with the `pb_solver` token replaced by `s`. -/
def scenario_with_pb_solver (s : symbol) : params_ref :=
  { scenario_params with sat := { scenario_sat_params with pb_solver := s } }

/-- The scenario with the `gc_k` value replaced by `k`. -/
def scenario_with_gc_k (k : Nat) : params_ref :=
  { scenario_params with sat := { scenario_sat_params with gc_k := k } }

/-- The scenario with the typed `random_seed` value `seed` and the raw entries `es`. -/
def scenario_with_seed (seed : Nat) (es : List (String × param_value)) : params_ref :=
  { scenario_params with entries := es, sat := { scenario_sat_params with random_seed := seed } }

/-- The scenario with the raw entries `es`. -/
def scenario_with_entries (es : List (String × param_value)) : params_ref :=
  { scenario_params with entries := es }

/-- The scenario with the proof-logging inputs and the thread count replaced. -/
def scenario_with_drat (check_unsat check_sat : Bool) (file : symbol) (threads : Nat) :
    params_ref :=
  { scenario_params with
    sat := { scenario_sat_params with
      drat_check_unsat := check_unsat
      drat_check_sat := check_sat
      drat_file := file
      threads := threads } }

/-- Another configuration to run `updt_params` on. -/
def other_config : config :=
  { prior_config with
    m_max_memory := 17
    m_restart := RS_GEOMETRIC
    m_gc_k := 9
    m_random_seed := 5
    m_drat := true
    m_step_size_init := 1
    m_elim_vars := true
    m_incremental := false }

/-- The scenario with the `threads` value replaced by `t`. -/
def scenario_with_threads (t : Nat) : params_ref :=
  { scenario_params with sat := { scenario_sat_params with threads := t } }

/-- The scenario with the `threads` value and the `gc` token replaced. -/
def scenario_with_threads_gc (t : Nat) (s : symbol) : params_ref :=
  { scenario_params with sat := { scenario_sat_params with threads := t, gc := s } }

/-- The scenario with the `restart` and `pb_solver` tokens replaced. -/
def scenario_with_restart_pb_solver (s1 s2 : symbol) : params_ref :=
  { scenario_params with sat := { scenario_sat_params with restart := s1, pb_solver := s2 } }

/-- The scenario with the `lookahead_reward` and `gc` tokens replaced. -/
def scenario_with_lookahead_reward_gc (s1 s2 : symbol) : params_ref :=
  { scenario_params with
    sat := { scenario_sat_params with lookahead_reward := s1, gc := s2 } }

/-- The stored fields satisfy the proof-logging equation:
`m_drat = ((m_drat_check_unsat || m_drat_file != "" || m_drat_check_sat)
&& m_num_threads == 1)`. -/
def drat_consistent (c : config) : Bool :=
  c.m_drat == ((c.m_drat_check_unsat || c.m_drat_file != "" || c.m_drat_check_sat)
    && c.m_num_threads == 1)

/-- A prior configuration whose branching heuristic is `BH_LRB`. -/
def lrb_config : config :=
  { other_config with m_branching_heuristic := BH_LRB }

/-! ## Stepping through a block -/

theorem block_nil (c : config) : block [] c = outcome.returned c := rfl

theorem block_assign (f : config → config) (rest : List stmt) (c : config) :
    block (assign f :: rest) c = block rest (f c) := rfl

theorem block_restart (s : symbol) (rest : List stmt) (c : config) :
    block ((if s = "luby" then
      assign fun c => { c with m_restart := RS_LUBY }
    else if s = "geometric" then
      assign fun c => { c with m_restart := RS_GEOMETRIC }
    else
      throw_exception "invalid restart strategy") :: rest) c
    = match restart_of_token s with
      | none => outcome.thrown ⟨"invalid restart strategy"⟩ c
      | some r => block rest { c with m_restart := r } := by
  unfold restart_of_token
  split_ifs <;> rfl

theorem block_phase (s : symbol) (rest : List stmt) (c : config) :
    block ((if s = "always_false" then
      assign fun c => { c with m_phase := PS_ALWAYS_FALSE }
    else if s = "always_true" then
      assign fun c => { c with m_phase := PS_ALWAYS_TRUE }
    else if s = "caching" then
      assign fun c => { c with m_phase := PS_CACHING }
    else if s = "random" then
      assign fun c => { c with m_phase := PS_RANDOM }
    else
      throw_exception "invalid phase selection strategy") :: rest) c
    = match phase_of_token s with
      | none => outcome.thrown ⟨"invalid phase selection strategy"⟩ c
      | some ph => block rest { c with m_phase := ph } := by
  unfold phase_of_token
  split_ifs <;> rfl

theorem block_random_seed (raw : Nat) (rest : List stmt) (c : config) :
    block ((fun c =>
      if c.m_random_seed = 0 then
        assign (fun c => { c with m_random_seed := raw }) c
      else
        outcome.returned c) :: rest) c
    = block rest { c with m_random_seed := if c.m_random_seed = 0 then raw else c.m_random_seed }
    := by
  by_cases h : c.m_random_seed = 0
  · simp only [block, h, if_true, assign]
  · simp only [block, h, if_false]

theorem block_lookahead_reward (s : symbol) (rest : List stmt) (c : config) :
    block ((if s = "heule_schur" then
      assign fun c => { c with m_lookahead_reward := heule_schur_reward }
    else if s = "heuleu" then
      assign fun c => { c with m_lookahead_reward := heule_unit_reward }
    else if s = "ternary" then
      assign fun c => { c with m_lookahead_reward := ternary_reward }
    else if s = "unit" then
      assign fun c => { c with m_lookahead_reward := unit_literal_reward }
    else if s = "march_cu" then
      assign fun c => { c with m_lookahead_reward := march_cu_reward }
    else
      throw_exception "invalid reward type supplied: accepted heuristics are 'ternary', 'heuleu', 'unit' or 'heule_schur'") :: rest) c
    = match reward_of_token s with
      | none =>
        outcome.thrown
          ⟨"invalid reward type supplied: accepted heuristics are 'ternary', 'heuleu', 'unit' or 'heule_schur'"⟩ c
      | some rw => block rest { c with m_lookahead_reward := rw } := by
  unfold reward_of_token
  split_ifs <;> rfl

theorem block_gc (s : symbol) (rest : List stmt) (c : config) :
    block ((if s = "dyn_psm" then
      assign fun c => { c with m_gc_strategy := GC_DYN_PSM }
    else if s = "glue_psm" then
      assign fun c => { c with m_gc_strategy := GC_GLUE_PSM }
    else if s = "glue" then
      assign fun c => { c with m_gc_strategy := GC_GLUE }
    else if s = "psm" then
      assign fun c => { c with m_gc_strategy := GC_PSM }
    else if s = "psm_glue" then
      assign fun c => { c with m_gc_strategy := GC_PSM_GLUE }
    else
      throw_exception "invalid gc strategy") :: rest) c
    = match gc_of_token s with
      | none => outcome.thrown ⟨"invalid gc strategy"⟩ c
      | some g => block rest { c with m_gc_strategy := g } := by
  unfold gc_of_token
  split_ifs <;> rfl

theorem block_branching_heuristic (s : symbol) (rest : List stmt) (c : config) :
    block ((if s = "vsids" then
      assign fun c => { c with m_branching_heuristic := BH_VSIDS }
    else if s = "chb" then
      assign fun c => { c with m_branching_heuristic := BH_CHB }
    else if s = "lrb" then
      assign fun c => { c with m_branching_heuristic := BH_LRB }
    else
      throw_exception "invalid branching heuristic: accepted heuristics are 'vsids', 'lrb' or 'chb'") :: rest) c
    = match branching_of_token s with
      | none =>
        outcome.thrown
          ⟨"invalid branching heuristic: accepted heuristics are 'vsids', 'lrb' or 'chb'"⟩ c
      | some b => block rest { c with m_branching_heuristic := b } := by
  unfold branching_of_token
  split_ifs <;> rfl

theorem block_pb_solver (s : symbol) (rest : List stmt) (c : config) :
    block ((if s = "circuit" then
      assign fun c => { c with m_pb_solver := PB_CIRCUIT }
    else if s = "sorting" then
      assign fun c => { c with m_pb_solver := PB_SORTING }
    else if s = "totalizer" then
      assign fun c => { c with m_pb_solver := PB_TOTALIZER }
    else if s = "solver" then
      assign fun c => { c with m_pb_solver := PB_SOLVER }
    else
      throw_exception "invalid PB solver: solver, totalizer, circuit, sorting") :: rest) c
    = match pb_of_token s with
      | none => outcome.thrown ⟨"invalid PB solver: solver, totalizer, circuit, sorting"⟩ c
      | some pb => block rest { c with m_pb_solver := pb } := by
  unfold pb_of_token
  split_ifs <;> rfl

/-- The body of `updt_params` computes the decision `resolve`. -/
theorem updt_params_eq_resolve (megabytes_to_bytes : Nat → Nat) (_p : params_ref)
    (c : config) : updt_params megabytes_to_bytes _p c = resolve megabytes_to_bytes _p c := by
  unfold updt_params resolve
  simp only [block_assign, block_restart, block_phase, block_random_seed,
    block_lookahead_reward, block_gc, block_branching_heuristic, block_pb_solver, block_nil]
  cases restart_of_token _p.sat.restart with
  | none => rfl
  | some r =>
  cases phase_of_token _p.sat.phase with
  | none => rfl
  | some ph =>
  cases reward_of_token _p.sat.lookahead_reward with
  | none => rfl
  | some rw =>
  cases gc_of_token _p.sat.gc with
  | none => rfl
  | some g =>
  cases branching_of_token _p.sat.branching_heuristic with
  | none => rfl
  | some b =>
  cases pb_of_token _p.sat.pb_solver with
  | none => rfl
  | some pb => rfl


/-! ## Token tables -/

theorem restart_of_token_eq_none (s : symbol) :
    restart_of_token s = none ↔ s ∉ restart_tokens := by
  unfold restart_of_token restart_tokens
  split_ifs <;> simp [*]

theorem phase_of_token_eq_none (s : symbol) :
    phase_of_token s = none ↔ s ∉ phase_tokens := by
  unfold phase_of_token phase_tokens
  split_ifs <;> simp [*]

theorem reward_of_token_eq_none (s : symbol) :
    reward_of_token s = none ↔ s ∉ lookahead_reward_tokens := by
  unfold reward_of_token lookahead_reward_tokens
  split_ifs <;> simp [*]

theorem gc_of_token_eq_none (s : symbol) :
    gc_of_token s = none ↔ s ∉ gc_tokens := by
  unfold gc_of_token gc_tokens
  split_ifs <;> simp [*]

theorem branching_of_token_eq_none (s : symbol) :
    branching_of_token s = none ↔ s ∉ branching_heuristic_tokens := by
  unfold branching_of_token branching_heuristic_tokens
  split_ifs <;> simp [*]

theorem pb_of_token_eq_none (s : symbol) :
    pb_of_token s = none ↔ s ∉ pb_solver_tokens := by
  unfold pb_of_token pb_solver_tokens
  split_ifs <;> simp [*]

theorem token_of_restart_eq {s : symbol} {r : restart_strategy}
    (h : restart_of_token s = some r) : token_of_restart r = s := by
  unfold restart_of_token at h
  split_ifs at h <;> cases h <;> simp [token_of_restart, *]

theorem token_of_phase_eq {s : symbol} {ph : phase_selection}
    (h : phase_of_token s = some ph) : token_of_phase ph = s := by
  unfold phase_of_token at h
  split_ifs at h <;> cases h <;> simp [token_of_phase, *]

theorem token_of_reward_eq {s : symbol} {rw : reward_t}
    (h : reward_of_token s = some rw) : token_of_reward rw = s := by
  unfold reward_of_token at h
  split_ifs at h <;> cases h <;> simp [token_of_reward, *]

theorem token_of_gc_eq {s : symbol} {g : gc_strategy}
    (h : gc_of_token s = some g) : token_of_gc g = s := by
  unfold gc_of_token at h
  split_ifs at h <;> cases h <;> simp [token_of_gc, *]

theorem token_of_branching_eq {s : symbol} {b : branching_heuristic}
    (h : branching_of_token s = some b) : token_of_branching b = s := by
  unfold branching_of_token at h
  split_ifs at h <;> cases h <;> simp [token_of_branching, *]

theorem token_of_pb_eq {s : symbol} {pb : pb_solver}
    (h : pb_of_token s = some pb) : token_of_pb pb = s := by
  unfold pb_of_token at h
  split_ifs at h <;> cases h <;> simp [token_of_pb, *]

/-- Within a family, two resolved tokens give the same variant exactly when they
are the same token. -/
theorem variant_eq_iff {α : Type} {f : symbol → Option α} {inv : α → symbol}
    (hinv : ∀ {s a}, f s = some a → inv a = s) {s t : symbol} {a a' : α}
    (hs : f s = some a) (ht : f t = some a') : a' = a ↔ t = s := by
  constructor
  · intro e
    rw [← hinv hs, ← hinv ht, e]
  · intro e
    rw [e, hs] at ht
    exact (Option.some.inj ht).symm

theorem mem_of_eq_some {α : Type} {f : symbol → Option α} {l : List symbol}
    (hf : ∀ s, f s = none ↔ s ∉ l) {s : symbol} {a : α} (h : f s = some a) : s ∈ l := by
  by_contra hn
  rw [(hf s).mpr hn] at h
  exact Option.noConfusion h

theorem exists_of_mem {α : Type} {f : symbol → Option α} {l : List symbol}
    (hf : ∀ s, f s = none ↔ s ∉ l) {s : symbol} (h : s ∈ l) : ∃ a, f s = some a := by
  cases hs : f s with
  | none => exact absurd h ((hf s).mp hs)
  | some a => exact ⟨a, rfl⟩

/-! ## Success and failure of `updt_params` -/

/-- A call that returns normally resolved all six tokens, and then every call
with the same source returns normally, whatever the prior configuration. -/
theorem succeeds_inv {mb : Nat → Nat} {_p : params_ref} {c : config}
    (h : (updt_params mb _p c).succeeds = true) :
    ∃ r ph rw g b pb,
      restart_of_token _p.sat.restart = some r ∧ phase_of_token _p.sat.phase = some ph ∧
      reward_of_token _p.sat.lookahead_reward = some rw ∧ gc_of_token _p.sat.gc = some g ∧
      branching_of_token _p.sat.branching_heuristic = some b ∧
      pb_of_token _p.sat.pb_solver = some pb ∧
      ∀ (mb' : Nat → Nat) (c' : config),
        updt_params mb' _p c' = outcome.returned (at_return mb' _p c' r ph rw g b pb) := by
  rw [updt_params_eq_resolve] at h
  unfold resolve at h
  cases h1 : restart_of_token _p.sat.restart with
  | none => rw [h1] at h; exact (Bool.false_ne_true h).elim
  | some r =>
  cases h2 : phase_of_token _p.sat.phase with
  | none => rw [h1, h2] at h; exact (Bool.false_ne_true h).elim
  | some ph =>
  cases h3 : reward_of_token _p.sat.lookahead_reward with
  | none => rw [h1, h2, h3] at h; exact (Bool.false_ne_true h).elim
  | some rw =>
  cases h4 : gc_of_token _p.sat.gc with
  | none => rw [h1, h2, h3, h4] at h; exact (Bool.false_ne_true h).elim
  | some g =>
  cases h5 : branching_of_token _p.sat.branching_heuristic with
  | none => rw [h1, h2, h3, h4, h5] at h; exact (Bool.false_ne_true h).elim
  | some b =>
  cases h6 : pb_of_token _p.sat.pb_solver with
  | none => rw [h1, h2, h3, h4, h5, h6] at h; exact (Bool.false_ne_true h).elim
  | some pb =>
    refine ⟨r, ph, rw, g, b, pb, rfl, rfl, rfl, rfl, rfl, rfl, ?_⟩
    intro mb' c'
    rw [updt_params_eq_resolve]
    unfold resolve
    rw [h1, h2, h3, h4, h5, h6]

/-- Resolved tokens make the call return normally. -/
theorem returned_of_tokens {_p : params_ref} {r : restart_strategy} {ph : phase_selection}
    {rw : reward_t} {g : gc_strategy} {b : branching_heuristic} {pb : pb_solver}
    (h1 : restart_of_token _p.sat.restart = some r) (h2 : phase_of_token _p.sat.phase = some ph)
    (h3 : reward_of_token _p.sat.lookahead_reward = some rw) (h4 : gc_of_token _p.sat.gc = some g)
    (h5 : branching_of_token _p.sat.branching_heuristic = some b)
    (h6 : pb_of_token _p.sat.pb_solver = some pb) (mb : Nat → Nat) (c : config) :
    updt_params mb _p c = outcome.returned (at_return mb _p c r ph rw g b pb) := by
  rw [updt_params_eq_resolve]
  unfold resolve
  rw [h1, h2, h3, h4, h5, h6]

theorem succeeds_iff_accepted (mb : Nat → Nat) (_p : params_ref) (c : config) :
    (updt_params mb _p c).succeeds = true ↔ accepted _p.sat := by
  constructor
  · intro h
    obtain ⟨r, ph, rw, g, b, pb, h1, h2, h3, h4, h5, h6, -⟩ := succeeds_inv h
    exact ⟨mem_of_eq_some restart_of_token_eq_none h1, mem_of_eq_some phase_of_token_eq_none h2,
      mem_of_eq_some reward_of_token_eq_none h3, mem_of_eq_some gc_of_token_eq_none h4,
      mem_of_eq_some branching_of_token_eq_none h5, mem_of_eq_some pb_of_token_eq_none h6⟩
  · rintro ⟨a1, a2, a3, a4, a5, a6⟩
    obtain ⟨r, h1⟩ := exists_of_mem restart_of_token_eq_none a1
    obtain ⟨ph, h2⟩ := exists_of_mem phase_of_token_eq_none a2
    obtain ⟨rw, h3⟩ := exists_of_mem reward_of_token_eq_none a3
    obtain ⟨g, h4⟩ := exists_of_mem gc_of_token_eq_none a4
    obtain ⟨b, h5⟩ := exists_of_mem branching_of_token_eq_none a5
    obtain ⟨pb, h6⟩ := exists_of_mem pb_of_token_eq_none a6
    rw [returned_of_tokens h1 h2 h3 h4 h5 h6]
    rfl

theorem thrown_of_not_succeeds {o : outcome} (h : o.succeeds ≠ true) :
    ∃ e c', o = outcome.thrown e c' := by
  cases o with
  | returned c' => exact absurd rfl h
  | thrown e c' => exact ⟨e, c', rfl⟩

/-! ## The claims -/

/-- C1: `updt_params` returns normally if and only if each of the six enumerated
options holds a token of its vocabulary, compared as an exact string; on every
other input (such as `restart` being `Luby` or `bogus`) it throws a
`sat_param_exception`; and the outcome's kind depends on nothing but the six
enumerated options: not on the other options, the raw entries, the simplifier
view, the memory conversion or the prior configuration. -/
theorem updt_params_succeeds_iff_tokens_accepted (mb : Nat → Nat) (_p : params_ref)
    (c : config) :
    ((updt_params mb _p c).succeeds = true ↔
      (_p.sat.restart = "luby" ∨ _p.sat.restart = "geometric") ∧
      (_p.sat.phase = "always_false" ∨ _p.sat.phase = "always_true" ∨
        _p.sat.phase = "caching" ∨ _p.sat.phase = "random") ∧
      (_p.sat.lookahead_reward = "heule_schur" ∨ _p.sat.lookahead_reward = "heuleu" ∨
        _p.sat.lookahead_reward = "ternary" ∨ _p.sat.lookahead_reward = "unit" ∨
        _p.sat.lookahead_reward = "march_cu") ∧
      (_p.sat.gc = "dyn_psm" ∨ _p.sat.gc = "glue_psm" ∨ _p.sat.gc = "glue" ∨
        _p.sat.gc = "psm" ∨ _p.sat.gc = "psm_glue") ∧
      (_p.sat.branching_heuristic = "vsids" ∨ _p.sat.branching_heuristic = "chb" ∨
        _p.sat.branching_heuristic = "lrb") ∧
      (_p.sat.pb_solver = "circuit" ∨ _p.sat.pb_solver = "sorting" ∨
        _p.sat.pb_solver = "totalizer" ∨ _p.sat.pb_solver = "solver")) ∧
    ((updt_params mb _p c).succeeds = true ↔ accepted _p.sat) ∧
    (¬ accepted _p.sat → ∃ e c', updt_params mb _p c = outcome.thrown e c') ∧
    (_p.sat.restart = "Luby" ∨ _p.sat.restart = "bogus" →
      ∃ e c', updt_params mb _p c = outcome.thrown e c') ∧
    (∀ (mb' : Nat → Nat) (_q : params_ref) (c' : config), same_enumerated _p.sat _q.sat →
      (updt_params mb' _q c').succeeds = (updt_params mb _p c).succeeds) := by
  have hacc := succeeds_iff_accepted mb _p c
  refine ⟨?_, hacc, ?_, ?_, ?_⟩
  · rw [hacc]
    simp [accepted, restart_tokens, phase_tokens, lookahead_reward_tokens, gc_tokens,
      branching_heuristic_tokens, pb_solver_tokens]
  · intro hn
    exact thrown_of_not_succeeds (fun h => hn (hacc.mp h))
  · intro hs
    apply thrown_of_not_succeeds
    intro h
    have h1 := (hacc.mp h).1
    rcases hs with hs | hs <;> rw [hs] at h1 <;> revert h1 <;> decide
  · intro mb' _q c' hq
    have hq' : accepted _q.sat ↔ accepted _p.sat := by
      obtain ⟨e1, e2, e3, e4, e5, e6⟩ := hq
      simp only [accepted, e1, e2, e3, e4, e5, e6]
    have h2 := succeeds_iff_accepted mb' _q c'
    cases hb : (updt_params mb' _q c').succeeds <;>
      cases hb' : (updt_params mb _p c).succeeds <;> simp_all

/-- C2: after a call that returns normally each enumerated field holds the
variant its token names (23 tokens, 23 variants); for any two calls that return
normally, a family's field holds the same variant exactly when the two tokens
are the same, so distinct tokens give distinct variants; and every input with
`restart=geometric`, `phase=caching`, `gc=glue`, `lookahead_reward=unit`,
`branching_heuristic=lrb`, `pb_solver=sorting`, `threads=1`,
`drat_check_unsat=true` returns normally with `RS_GEOMETRIC`, `PS_CACHING`,
`GC_GLUE`, `unit_literal_reward`, `BH_LRB`, `PB_SORTING` and `m_drat = true`. -/
theorem updt_params_token_variants (mb : Nat → Nat) (_p : params_ref) (c : config)
    (h : (updt_params mb _p c).succeeds = true) :
    ((_p.sat.restart = "luby" → (updt_params mb _p c).state.m_restart = RS_LUBY) ∧
     (_p.sat.restart = "geometric" → (updt_params mb _p c).state.m_restart = RS_GEOMETRIC)) ∧
    ((_p.sat.phase = "always_false" → (updt_params mb _p c).state.m_phase = PS_ALWAYS_FALSE) ∧
     (_p.sat.phase = "always_true" → (updt_params mb _p c).state.m_phase = PS_ALWAYS_TRUE) ∧
     (_p.sat.phase = "caching" → (updt_params mb _p c).state.m_phase = PS_CACHING) ∧
     (_p.sat.phase = "random" → (updt_params mb _p c).state.m_phase = PS_RANDOM)) ∧
    ((_p.sat.lookahead_reward = "heule_schur" →
        (updt_params mb _p c).state.m_lookahead_reward = heule_schur_reward) ∧
     (_p.sat.lookahead_reward = "heuleu" →
        (updt_params mb _p c).state.m_lookahead_reward = heule_unit_reward) ∧
     (_p.sat.lookahead_reward = "ternary" →
        (updt_params mb _p c).state.m_lookahead_reward = ternary_reward) ∧
     (_p.sat.lookahead_reward = "unit" →
        (updt_params mb _p c).state.m_lookahead_reward = unit_literal_reward) ∧
     (_p.sat.lookahead_reward = "march_cu" →
        (updt_params mb _p c).state.m_lookahead_reward = march_cu_reward)) ∧
    ((_p.sat.gc = "dyn_psm" → (updt_params mb _p c).state.m_gc_strategy = GC_DYN_PSM) ∧
     (_p.sat.gc = "glue_psm" → (updt_params mb _p c).state.m_gc_strategy = GC_GLUE_PSM) ∧
     (_p.sat.gc = "glue" → (updt_params mb _p c).state.m_gc_strategy = GC_GLUE) ∧
     (_p.sat.gc = "psm" → (updt_params mb _p c).state.m_gc_strategy = GC_PSM) ∧
     (_p.sat.gc = "psm_glue" → (updt_params mb _p c).state.m_gc_strategy = GC_PSM_GLUE)) ∧
    ((_p.sat.branching_heuristic = "vsids" →
        (updt_params mb _p c).state.m_branching_heuristic = BH_VSIDS) ∧
     (_p.sat.branching_heuristic = "chb" →
        (updt_params mb _p c).state.m_branching_heuristic = BH_CHB) ∧
     (_p.sat.branching_heuristic = "lrb" →
        (updt_params mb _p c).state.m_branching_heuristic = BH_LRB)) ∧
    ((_p.sat.pb_solver = "circuit" → (updt_params mb _p c).state.m_pb_solver = PB_CIRCUIT) ∧
     (_p.sat.pb_solver = "sorting" → (updt_params mb _p c).state.m_pb_solver = PB_SORTING) ∧
     (_p.sat.pb_solver = "totalizer" → (updt_params mb _p c).state.m_pb_solver = PB_TOTALIZER) ∧
     (_p.sat.pb_solver = "solver" → (updt_params mb _p c).state.m_pb_solver = PB_SOLVER)) ∧
    (∀ (mb' : Nat → Nat) (_q : params_ref) (c' : config),
      (updt_params mb' _q c').succeeds = true →
      ((updt_params mb' _q c').state.m_restart = (updt_params mb _p c).state.m_restart ↔
        _q.sat.restart = _p.sat.restart) ∧
      ((updt_params mb' _q c').state.m_phase = (updt_params mb _p c).state.m_phase ↔
        _q.sat.phase = _p.sat.phase) ∧
      ((updt_params mb' _q c').state.m_lookahead_reward =
          (updt_params mb _p c).state.m_lookahead_reward ↔
        _q.sat.lookahead_reward = _p.sat.lookahead_reward) ∧
      ((updt_params mb' _q c').state.m_gc_strategy = (updt_params mb _p c).state.m_gc_strategy ↔
        _q.sat.gc = _p.sat.gc) ∧
      ((updt_params mb' _q c').state.m_branching_heuristic =
          (updt_params mb _p c).state.m_branching_heuristic ↔
        _q.sat.branching_heuristic = _p.sat.branching_heuristic) ∧
      ((updt_params mb' _q c').state.m_pb_solver = (updt_params mb _p c).state.m_pb_solver ↔
        _q.sat.pb_solver = _p.sat.pb_solver)) ∧
    (∀ (mb' : Nat → Nat) (_q : params_ref) (c' : config),
      _q.sat.restart = "geometric" → _q.sat.phase = "caching" → _q.sat.gc = "glue" →
      _q.sat.lookahead_reward = "unit" → _q.sat.branching_heuristic = "lrb" →
      _q.sat.pb_solver = "sorting" → _q.sat.threads = 1 → _q.sat.drat_check_unsat = true →
      (updt_params mb' _q c').succeeds = true ∧
      (updt_params mb' _q c').state.m_restart = RS_GEOMETRIC ∧
      (updt_params mb' _q c').state.m_phase = PS_CACHING ∧
      (updt_params mb' _q c').state.m_gc_strategy = GC_GLUE ∧
      (updt_params mb' _q c').state.m_lookahead_reward = unit_literal_reward ∧
      (updt_params mb' _q c').state.m_branching_heuristic = BH_LRB ∧
      (updt_params mb' _q c').state.m_pb_solver = PB_SORTING ∧
      (updt_params mb' _q c').state.m_drat = true) := by
  obtain ⟨r, ph, rw, g, b, pb, h1, h2, h3, h4, h5, h6, hrun⟩ := succeeds_inv h
  have e1 : (updt_params mb _p c).state.m_restart = r := by rw [hrun]; rfl
  have e2 : (updt_params mb _p c).state.m_phase = ph := by rw [hrun]; rfl
  have e3 : (updt_params mb _p c).state.m_lookahead_reward = rw := by rw [hrun]; rfl
  have e4 : (updt_params mb _p c).state.m_gc_strategy = g := by rw [hrun]; rfl
  have e5 : (updt_params mb _p c).state.m_branching_heuristic = b := by rw [hrun]; rfl
  have e6 : (updt_params mb _p c).state.m_pb_solver = pb := by rw [hrun]; rfl
  rw [e1, e2, e3, e4, e5, e6]
  refine ⟨?_, ?_, ?_, ?_, ?_, ?_, ?_, ?_⟩
  · refine ⟨?_, ?_⟩ <;> intro hs <;> rw [hs] at h1 <;> exact (Option.some.inj h1).symm
  · refine ⟨?_, ?_, ?_, ?_⟩ <;> intro hs <;> rw [hs] at h2 <;> exact (Option.some.inj h2).symm
  · refine ⟨?_, ?_, ?_, ?_, ?_⟩ <;> intro hs <;> rw [hs] at h3 <;>
      exact (Option.some.inj h3).symm
  · refine ⟨?_, ?_, ?_, ?_, ?_⟩ <;> intro hs <;> rw [hs] at h4 <;>
      exact (Option.some.inj h4).symm
  · refine ⟨?_, ?_, ?_⟩ <;> intro hs <;> rw [hs] at h5 <;> exact (Option.some.inj h5).symm
  · refine ⟨?_, ?_, ?_, ?_⟩ <;> intro hs <;> rw [hs] at h6 <;> exact (Option.some.inj h6).symm
  · intro mb' _q c' hq
    obtain ⟨r', ph', rw', g', b', pb', k1, k2, k3, k4, k5, k6, hrun'⟩ := succeeds_inv hq
    rw [hrun' mb' c']
    exact ⟨variant_eq_iff token_of_restart_eq h1 k1, variant_eq_iff token_of_phase_eq h2 k2,
      variant_eq_iff token_of_reward_eq h3 k3, variant_eq_iff token_of_gc_eq h4 k4,
      variant_eq_iff token_of_branching_eq h5 k5, variant_eq_iff token_of_pb_eq h6 k6⟩
  · intro mb' _q c' q1 q2 q3 q4 q5 q6 q7 q8
    have k1 : restart_of_token _q.sat.restart = some RS_GEOMETRIC := by rw [q1]; rfl
    have k2 : phase_of_token _q.sat.phase = some PS_CACHING := by rw [q2]; rfl
    have k3 : reward_of_token _q.sat.lookahead_reward = some unit_literal_reward := by
      rw [q4]; rfl
    have k4 : gc_of_token _q.sat.gc = some GC_GLUE := by rw [q3]; rfl
    have k5 : branching_of_token _q.sat.branching_heuristic = some BH_LRB := by rw [q5]; rfl
    have k6 : pb_of_token _q.sat.pb_solver = some PB_SORTING := by rw [q6]; rfl
    rw [returned_of_tokens k1 k2 k3 k4 k5 k6]
    refine ⟨rfl, rfl, rfl, rfl, rfl, rfl, rfl, ?_⟩
    show ((_q.sat.drat_check_unsat || _q.sat.drat_file != "" || _q.sat.drat_check_sat)
      && _q.sat.threads == 1) = true
    rw [q7, q8]
    rfl

/-- C2 at the scenario's input: the call returns normally with the variants and
the proof-logging flag the scenario names. -/
theorem updt_params_token_variants_scenario :
    (updt_params example_megabytes_to_bytes scenario_params prior_config).succeeds = true ∧
    (updt_params example_megabytes_to_bytes scenario_params prior_config).state.m_restart
      = RS_GEOMETRIC ∧
    (updt_params example_megabytes_to_bytes scenario_params prior_config).state.m_phase
      = PS_CACHING ∧
    (updt_params example_megabytes_to_bytes scenario_params prior_config).state.m_gc_strategy
      = GC_GLUE ∧
    (updt_params example_megabytes_to_bytes scenario_params prior_config).state.m_lookahead_reward
      = unit_literal_reward ∧
    (updt_params example_megabytes_to_bytes scenario_params
      prior_config).state.m_branching_heuristic = BH_LRB ∧
    (updt_params example_megabytes_to_bytes scenario_params prior_config).state.m_pb_solver
      = PB_SORTING ∧
    (updt_params example_megabytes_to_bytes scenario_params prior_config).state.m_drat = true :=
  (updt_params_token_variants example_megabytes_to_bytes scenario_params prior_config
    (by decide)).2.2.2.2.2.2.2 example_megabytes_to_bytes scenario_params prior_config
    rfl rfl rfl rfl rfl rfl rfl rfl

/-- C3, the claim as stated fails: with `branching_heuristic` the empty string and
the other five options holding accepted tokens, `updt_params` does not return
normally; it throws the branching-heuristic exception. -/
theorem empty_branching_heuristic_throws :
    (scenario_with_branching_heuristic "").sat.branching_heuristic = "" ∧
    (scenario_with_branching_heuristic "").sat.restart ∈ restart_tokens ∧
    (scenario_with_branching_heuristic "").sat.phase ∈ phase_tokens ∧
    (scenario_with_branching_heuristic "").sat.lookahead_reward ∈ lookahead_reward_tokens ∧
    (scenario_with_branching_heuristic "").sat.gc ∈ gc_tokens ∧
    (scenario_with_branching_heuristic "").sat.pb_solver ∈ pb_solver_tokens ∧
    (updt_params example_megabytes_to_bytes (scenario_with_branching_heuristic "")
      prior_config).succeeds = false ∧
    (updt_params example_megabytes_to_bytes (scenario_with_branching_heuristic "")
      prior_config).exception
      = some ⟨"invalid branching heuristic: accepted heuristics are 'vsids', 'lrb' or 'chb'"⟩ := by
  refine ⟨rfl, ?_, ?_, ?_, ?_, ?_, rfl, rfl⟩ <;> decide

/-- C3, amended: when `restart`, `phase`, `lookahead_reward` and `gc` hold accepted
tokens and `branching_heuristic` is the empty string, or any other token outside
`vsids`, `chb`, `lrb`, then `updt_params` throws the branching-heuristic
exception, and the configuration at the throw holds the pre-assigned `BH_VSIDS`
in `m_branching_heuristic`. -/
theorem updt_params_branching_heuristic_unaccepted (mb : Nat → Nat) (_p : params_ref)
    (c : config) (h1 : _p.sat.restart ∈ restart_tokens) (h2 : _p.sat.phase ∈ phase_tokens)
    (h3 : _p.sat.lookahead_reward ∈ lookahead_reward_tokens) (h4 : _p.sat.gc ∈ gc_tokens)
    (h5 : _p.sat.branching_heuristic = "" ∨
      _p.sat.branching_heuristic ∉ branching_heuristic_tokens) :
    (updt_params mb _p c).succeeds = false ∧
    (updt_params mb _p c).exception
      = some ⟨"invalid branching heuristic: accepted heuristics are 'vsids', 'lrb' or 'chb'"⟩ ∧
    (updt_params mb _p c).state.m_branching_heuristic = BH_VSIDS := by
  have h5' : _p.sat.branching_heuristic ∉ branching_heuristic_tokens := by
    rcases h5 with h5 | h5
    · rw [h5]; decide
    · exact h5
  obtain ⟨r, k1⟩ := exists_of_mem restart_of_token_eq_none h1
  obtain ⟨ph, k2⟩ := exists_of_mem phase_of_token_eq_none h2
  obtain ⟨rw, k3⟩ := exists_of_mem reward_of_token_eq_none h3
  obtain ⟨g, k4⟩ := exists_of_mem gc_of_token_eq_none h4
  have k5 := (branching_of_token_eq_none _p.sat.branching_heuristic).mpr h5'
  rw [updt_params_eq_resolve]
  unfold resolve
  rw [k1, k2, k3, k4, k5]
  exact ⟨rfl, rfl, rfl⟩

/-- C3, amended, at the empty token: starting from a configuration whose
branching heuristic is `BH_CHB`, the call throws and leaves `BH_VSIDS`. -/
theorem updt_params_branching_heuristic_unaccepted_empty :
    prior_config.m_branching_heuristic = BH_CHB ∧
    (updt_params example_megabytes_to_bytes (scenario_with_branching_heuristic "")
      prior_config).succeeds = false ∧
    (updt_params example_megabytes_to_bytes (scenario_with_branching_heuristic "")
      prior_config).exception
      = some ⟨"invalid branching heuristic: accepted heuristics are 'vsids', 'lrb' or 'chb'"⟩ ∧
    (updt_params example_megabytes_to_bytes (scenario_with_branching_heuristic "")
      prior_config).state.m_branching_heuristic = BH_VSIDS :=
  ⟨rfl, updt_params_branching_heuristic_unaccepted example_megabytes_to_bytes
    (scenario_with_branching_heuristic "") prior_config (by decide) (by decide) (by decide)
    (by decide) (Or.inl rfl)⟩

/-- C4: after a call that returns normally, `m_drat` is true if and only if
(`drat_check_unsat` is true, or `drat_file` is not the empty string, or
`drat_check_sat` is true) and `threads` equals 1; whatever the four inputs are,
the flag is the truth-table entry `(u || f || s) && t`; and the stored fields
satisfy `m_drat = ((m_drat_check_unsat || m_drat_file != "" || m_drat_check_sat)
&& m_num_threads == 1)`. -/
theorem updt_params_drat (mb : Nat → Nat) (_p : params_ref) (c : config)
    (h : (updt_params mb _p c).succeeds = true) :
    ((updt_params mb _p c).state.m_drat = true ↔
      (_p.sat.drat_check_unsat = true ∨ _p.sat.drat_file ≠ "" ∨ _p.sat.drat_check_sat = true) ∧
      _p.sat.threads = 1) ∧
    (∀ u s f t : Bool, _p.sat.drat_check_unsat = u → _p.sat.drat_check_sat = s →
      decide (_p.sat.drat_file ≠ "") = f → decide (_p.sat.threads = 1) = t →
      (updt_params mb _p c).state.m_drat = ((u || f || s) && t)) ∧
    (updt_params mb _p c).state.m_drat =
      (((updt_params mb _p c).state.m_drat_check_unsat ||
        (updt_params mb _p c).state.m_drat_file != "" ||
        (updt_params mb _p c).state.m_drat_check_sat) &&
       (updt_params mb _p c).state.m_num_threads == 1) := by
  obtain ⟨r, ph, rw, g, b, pb, -, -, -, -, -, -, hrun⟩ := succeeds_inv h
  have e : (updt_params mb _p c).state.m_drat =
      ((_p.sat.drat_check_unsat || _p.sat.drat_file != "" || _p.sat.drat_check_sat)
        && _p.sat.threads == 1) := by rw [hrun]; rfl
  refine ⟨?_, ?_, ?_⟩
  · rw [e]
    simp [or_assoc]
  · intro u s f t hu hs hf ht
    rw [e, ← hu, ← hs, ← hf, ← ht]
    by_cases k1 : _p.sat.drat_file = "" <;> by_cases k2 : _p.sat.threads = 1 <;> simp [k1, k2]
  · rw [hrun]
    rfl

/-- C4 at concrete inputs: a file name alone switches proof logging on with one
thread, and the same inputs with four threads leave it off. -/
theorem updt_params_drat_examples :
    (updt_params example_megabytes_to_bytes (scenario_with_drat false false "proof.drat" 1)
      prior_config).state.m_drat = true ∧
    (updt_params example_megabytes_to_bytes (scenario_with_drat false false "proof.drat" 4)
      prior_config).state.m_drat = false :=
  ⟨((updt_params_drat example_megabytes_to_bytes (scenario_with_drat false false "proof.drat" 1)
      prior_config (by decide)).1).mpr ⟨Or.inr (Or.inl (by decide)), rfl⟩,
   (updt_params_drat example_megabytes_to_bytes (scenario_with_drat false false "proof.drat" 4)
      prior_config (by decide)).2.1 false false true false rfl rfl (by decide) (by decide)⟩

/-- C5: after a call that returns normally `m_gc_k = min(255, gc_k)`: at most 255,
the input when the input is at most 255, and 255 otherwise; replacing `gc_k` by
any value `k` still returns normally, with `m_gc_k = min(255, k)`, so that
0, 255, 256 and 1000000 give 0, 255, 255 and 255. -/
theorem updt_params_gc_k (mb : Nat → Nat) (_p : params_ref) (c : config)
    (h : (updt_params mb _p c).succeeds = true) :
    (updt_params mb _p c).state.m_gc_k = min 255 _p.sat.gc_k ∧
    (updt_params mb _p c).state.m_gc_k ≤ 255 ∧
    (_p.sat.gc_k ≤ 255 → (updt_params mb _p c).state.m_gc_k = _p.sat.gc_k) ∧
    (255 < _p.sat.gc_k → (updt_params mb _p c).state.m_gc_k = 255) ∧
    (∀ k : Nat,
      (updt_params mb { _p with sat := { _p.sat with gc_k := k } } c).succeeds = true ∧
      (updt_params mb { _p with sat := { _p.sat with gc_k := k } } c).state.m_gc_k
        = min 255 k) ∧
    (updt_params mb { _p with sat := { _p.sat with gc_k := 0 } } c).state.m_gc_k = 0 ∧
    (updt_params mb { _p with sat := { _p.sat with gc_k := 255 } } c).state.m_gc_k = 255 ∧
    (updt_params mb { _p with sat := { _p.sat with gc_k := 256 } } c).state.m_gc_k = 255 ∧
    (updt_params mb { _p with sat := { _p.sat with gc_k := 1000000 } } c).state.m_gc_k = 255 := by
  have key : ∀ (_q : params_ref), (updt_params mb _q c).succeeds = true →
      (updt_params mb _q c).state.m_gc_k = min 255 _q.sat.gc_k := by
    intro _q hq
    obtain ⟨r, ph, rw, g, b, pb, -, -, -, -, -, -, hrun⟩ := succeeds_inv hq
    rw [hrun]
    rfl
  have all : ∀ k : Nat,
      (updt_params mb { _p with sat := { _p.sat with gc_k := k } } c).succeeds = true ∧
      (updt_params mb { _p with sat := { _p.sat with gc_k := k } } c).state.m_gc_k
        = min 255 k := by
    intro k
    have hk : (updt_params mb { _p with sat := { _p.sat with gc_k := k } } c).succeeds = true :=
      (succeeds_iff_accepted mb _ c).mpr ((succeeds_iff_accepted mb _p c).mp h)
    exact ⟨hk, key _ hk⟩
  have e := key _p h
  refine ⟨e, ?_, ?_, ?_, all, (all 0).2, (all 255).2, (all 256).2, (all 1000000).2⟩
  · rw [e]; exact Nat.min_le_left _ _
  · intro hle; rw [e]; exact Nat.min_eq_right hle
  · intro hlt; rw [e]; exact Nat.min_eq_left (Nat.le_of_lt hlt)

/-- C5 at the inputs 0, 255, 256 and 1000000. -/
theorem updt_params_gc_k_examples :
    (updt_params example_megabytes_to_bytes (scenario_with_gc_k 0) prior_config).state.m_gc_k
      = 0 ∧
    (updt_params example_megabytes_to_bytes (scenario_with_gc_k 255) prior_config).state.m_gc_k
      = 255 ∧
    (updt_params example_megabytes_to_bytes (scenario_with_gc_k 256) prior_config).state.m_gc_k
      = 255 ∧
    (updt_params example_megabytes_to_bytes (scenario_with_gc_k 1000000)
      prior_config).state.m_gc_k = 255 :=
  ⟨(updt_params_gc_k example_megabytes_to_bytes (scenario_with_gc_k 0) prior_config
      (by decide)).1,
   (updt_params_gc_k example_megabytes_to_bytes (scenario_with_gc_k 255) prior_config
      (by decide)).1,
   (updt_params_gc_k example_megabytes_to_bytes (scenario_with_gc_k 256) prior_config
      (by decide)).1,
   (updt_params_gc_k example_megabytes_to_bytes (scenario_with_gc_k 1000000) prior_config
      (by decide)).1⟩

/-- C6: after a call that returns normally, `m_random_seed` is the typed accessor's
`random_seed` when that value is nonzero, whatever the raw entries are, and is
the raw lookup `get_uint("random_seed", 0)` when the typed value is 0; so the
stored seed is 0 only if the typed value and the raw lookup are both 0. -/
theorem updt_params_random_seed (mb : Nat → Nat) (_p : params_ref) (c : config)
    (h : (updt_params mb _p c).succeeds = true) :
    (_p.sat.random_seed ≠ 0 → (updt_params mb _p c).state.m_random_seed = _p.sat.random_seed) ∧
    (_p.sat.random_seed ≠ 0 → ∀ es : List (String × param_value),
      (updt_params mb { _p with entries := es } c).succeeds = true ∧
      (updt_params mb { _p with entries := es } c).state.m_random_seed = _p.sat.random_seed) ∧
    (_p.sat.random_seed = 0 →
      (updt_params mb _p c).state.m_random_seed = _p.get_uint "random_seed" 0) ∧
    ((updt_params mb _p c).state.m_random_seed = 0 →
      _p.sat.random_seed = 0 ∧ _p.get_uint "random_seed" 0 = 0) := by
  have key : ∀ (_q : params_ref), (updt_params mb _q c).succeeds = true →
      (updt_params mb _q c).state.m_random_seed =
        if _q.sat.random_seed = 0 then _q.get_uint "random_seed" 0 else _q.sat.random_seed := by
    intro _q hq
    obtain ⟨r, ph, rw, g, b, pb, -, -, -, -, -, -, hrun⟩ := succeeds_inv hq
    rw [hrun]
    rfl
  have e := key _p h
  refine ⟨?_, ?_, ?_, ?_⟩
  · intro hne
    rw [e, if_neg hne]
  · intro hne es
    have hes : (updt_params mb { _p with entries := es } c).succeeds = true :=
      (succeeds_iff_accepted mb _ c).mpr ((succeeds_iff_accepted mb _p c).mp h)
    refine ⟨hes, ?_⟩
    rw [key _ hes]
    exact if_neg hne
  · intro h0
    rw [e, if_pos h0]
  · intro hz
    rw [e] at hz
    by_cases h0 : _p.sat.random_seed = 0
    · rw [if_pos h0] at hz
      exact ⟨h0, hz⟩
    · rw [if_neg h0] at hz
      exact absurd hz h0

/-- C6 at concrete inputs: a typed seed 7 is stored although the raw entry says 42,
and a typed seed 0 stores the raw entry 42. -/
theorem updt_params_random_seed_examples :
    (updt_params example_megabytes_to_bytes
      (scenario_with_seed 7 [("random_seed", param_value.uint_value 42)])
      prior_config).state.m_random_seed = 7 ∧
    (updt_params example_megabytes_to_bytes
      (scenario_with_seed 0 [("random_seed", param_value.uint_value 42)])
      prior_config).state.m_random_seed = 42 :=
  ⟨(updt_params_random_seed example_megabytes_to_bytes
      (scenario_with_seed 7 [("random_seed", param_value.uint_value 42)]) prior_config
      (by decide)).1 (by decide),
   (updt_params_random_seed example_megabytes_to_bytes
      (scenario_with_seed 0 [("random_seed", param_value.uint_value 42)]) prior_config
      (by decide)).2.2.1 rfl⟩

/-- C7: after a call that returns normally, `m_simplify_mult1`, `m_simplify_mult2`
and `m_simplify_max` are the raw lookups of `simplify_mult1`, `simplify_mult2`
and `simplify_max` with the defaults 300, 1.5 and 500000: the stored value when
the key is present, the default when it is absent; and each of the three depends
on its own key only. -/
theorem updt_params_simplify_constants (mb : Nat → Nat) (_p : params_ref) (c : config)
    (h : (updt_params mb _p c).succeeds = true) :
    ((updt_params mb _p c).state.m_simplify_mult1 = _p.get_uint "simplify_mult1" 300 ∧
     (updt_params mb _p c).state.m_simplify_mult2 = _p.get_double "simplify_mult2" 1.5 ∧
     (updt_params mb _p c).state.m_simplify_max = _p.get_uint "simplify_max" 500000) ∧
    ((∀ v, stored_uint _p.entries "simplify_mult1" = some v →
        (updt_params mb _p c).state.m_simplify_mult1 = v) ∧
     (stored_uint _p.entries "simplify_mult1" = none →
        (updt_params mb _p c).state.m_simplify_mult1 = 300)) ∧
    ((∀ v, stored_double _p.entries "simplify_mult2" = some v →
        (updt_params mb _p c).state.m_simplify_mult2 = v) ∧
     (stored_double _p.entries "simplify_mult2" = none →
        (updt_params mb _p c).state.m_simplify_mult2 = 1.5)) ∧
    ((∀ v, stored_uint _p.entries "simplify_max" = some v →
        (updt_params mb _p c).state.m_simplify_max = v) ∧
     (stored_uint _p.entries "simplify_max" = none →
        (updt_params mb _p c).state.m_simplify_max = 500000)) ∧
    (∀ (mb' : Nat → Nat) (_q : params_ref) (c' : config),
      (updt_params mb' _q c').succeeds = true →
      (stored_uint _q.entries "simplify_mult1" = stored_uint _p.entries "simplify_mult1" →
        (updt_params mb' _q c').state.m_simplify_mult1
          = (updt_params mb _p c).state.m_simplify_mult1) ∧
      (stored_double _q.entries "simplify_mult2" = stored_double _p.entries "simplify_mult2" →
        (updt_params mb' _q c').state.m_simplify_mult2
          = (updt_params mb _p c).state.m_simplify_mult2) ∧
      (stored_uint _q.entries "simplify_max" = stored_uint _p.entries "simplify_max" →
        (updt_params mb' _q c').state.m_simplify_max
          = (updt_params mb _p c).state.m_simplify_max)) := by
  have key : ∀ (mb' : Nat → Nat) (_q : params_ref) (c' : config),
      (updt_params mb' _q c').succeeds = true →
      (updt_params mb' _q c').state.m_simplify_mult1 = _q.get_uint "simplify_mult1" 300 ∧
      (updt_params mb' _q c').state.m_simplify_mult2 = _q.get_double "simplify_mult2" 1.5 ∧
      (updt_params mb' _q c').state.m_simplify_max = _q.get_uint "simplify_max" 500000 := by
    intro mb' _q c' hq
    obtain ⟨r, ph, rw, g, b, pb, -, -, -, -, -, -, hrun⟩ := succeeds_inv hq
    rw [hrun]
    exact ⟨rfl, rfl, rfl⟩
  obtain ⟨e1, e2, e3⟩ := key mb _p c h
  refine ⟨⟨e1, e2, e3⟩, ⟨?_, ?_⟩, ⟨?_, ?_⟩, ⟨?_, ?_⟩, ?_⟩
  · intro v hv
    rw [e1, params_ref.get_uint, hv]
  · intro hv
    rw [e1, params_ref.get_uint, hv]
  · intro v hv
    rw [e2, params_ref.get_double, hv]
  · intro hv
    rw [e2, params_ref.get_double, hv]
  · intro v hv
    rw [e3, params_ref.get_uint, hv]
  · intro hv
    rw [e3, params_ref.get_uint, hv]
  · intro mb' _q c' hq
    obtain ⟨f1, f2, f3⟩ := key mb' _q c' hq
    refine ⟨?_, ?_, ?_⟩
    · intro hv
      rw [f1, e1, params_ref.get_uint, params_ref.get_uint, hv]
    · intro hv
      rw [f2, e2, params_ref.get_double, params_ref.get_double, hv]
    · intro hv
      rw [f3, e3, params_ref.get_uint, params_ref.get_uint, hv]

/-- C7 at concrete inputs: with only `simplify_mult2 = 2.5` stored, the multiplier
is 2.5 and the other two constants are their defaults 300 and 500000; with no
entry at all the multiplier is 1.5. -/
theorem updt_params_simplify_constants_examples :
    (updt_params example_megabytes_to_bytes
      (scenario_with_entries [("simplify_mult2", param_value.double_value 2.5)])
      prior_config).state.m_simplify_mult1 = 300 ∧
    (updt_params example_megabytes_to_bytes
      (scenario_with_entries [("simplify_mult2", param_value.double_value 2.5)])
      prior_config).state.m_simplify_mult2 = 2.5 ∧
    (updt_params example_megabytes_to_bytes
      (scenario_with_entries [("simplify_mult2", param_value.double_value 2.5)])
      prior_config).state.m_simplify_max = 500000 ∧
    (updt_params example_megabytes_to_bytes (scenario_with_entries [])
      prior_config).state.m_simplify_mult2 = 1.5 :=
  ⟨(updt_params_simplify_constants example_megabytes_to_bytes
      (scenario_with_entries [("simplify_mult2", param_value.double_value 2.5)]) prior_config
      (by decide)).2.1.2 rfl,
   (updt_params_simplify_constants example_megabytes_to_bytes
      (scenario_with_entries [("simplify_mult2", param_value.double_value 2.5)]) prior_config
      (by decide)).2.2.1.1 2.5 rfl,
   (updt_params_simplify_constants example_megabytes_to_bytes
      (scenario_with_entries [("simplify_mult2", param_value.double_value 2.5)]) prior_config
      (by decide)).2.2.2.1.2 rfl,
   (updt_params_simplify_constants example_megabytes_to_bytes (scenario_with_entries [])
      prior_config (by decide)).2.2.1.2 rfl⟩

/-- The outcome when `restart` holds no accepted token. -/
theorem thrown_at_restart {_p : params_ref} (h1 : _p.sat.restart ∉ restart_tokens)
    (mb : Nat → Nat) (c : config) :
    updt_params mb _p c
      = outcome.thrown ⟨"invalid restart strategy"⟩ (at_restart mb _p c) := by
  rw [updt_params_eq_resolve]
  unfold resolve
  rw [(restart_of_token_eq_none _).mpr h1]

/-- The outcome when `phase` is the first option to hold no accepted token. -/
theorem thrown_at_phase {_p : params_ref} (h1 : _p.sat.restart ∈ restart_tokens)
    (h2 : _p.sat.phase ∉ phase_tokens) (mb : Nat → Nat) (c : config) :
    ∃ r, updt_params mb _p c
      = outcome.thrown ⟨"invalid phase selection strategy"⟩ (at_phase mb _p c r) := by
  obtain ⟨r, k1⟩ := exists_of_mem restart_of_token_eq_none h1
  refine ⟨r, ?_⟩
  rw [updt_params_eq_resolve]
  unfold resolve
  rw [k1, (phase_of_token_eq_none _).mpr h2]

/-- The outcome when `lookahead_reward` is the first option to hold no accepted token. -/
theorem thrown_at_lookahead_reward {_p : params_ref} (h1 : _p.sat.restart ∈ restart_tokens)
    (h2 : _p.sat.phase ∈ phase_tokens)
    (h3 : _p.sat.lookahead_reward ∉ lookahead_reward_tokens) (mb : Nat → Nat) (c : config) :
    ∃ r ph, updt_params mb _p c
      = outcome.thrown
          ⟨"invalid reward type supplied: accepted heuristics are 'ternary', 'heuleu', 'unit' or 'heule_schur'"⟩
          (at_lookahead_reward mb _p c r ph) := by
  obtain ⟨r, k1⟩ := exists_of_mem restart_of_token_eq_none h1
  obtain ⟨ph, k2⟩ := exists_of_mem phase_of_token_eq_none h2
  refine ⟨r, ph, ?_⟩
  rw [updt_params_eq_resolve]
  unfold resolve
  rw [k1, k2, (reward_of_token_eq_none _).mpr h3]

/-- The outcome when `gc` is the first option to hold no accepted token. -/
theorem thrown_at_gc {_p : params_ref} (h1 : _p.sat.restart ∈ restart_tokens)
    (h2 : _p.sat.phase ∈ phase_tokens)
    (h3 : _p.sat.lookahead_reward ∈ lookahead_reward_tokens) (h4 : _p.sat.gc ∉ gc_tokens)
    (mb : Nat → Nat) (c : config) :
    ∃ r ph rw, updt_params mb _p c
      = outcome.thrown ⟨"invalid gc strategy"⟩ (at_gc mb _p c r ph rw) := by
  obtain ⟨r, k1⟩ := exists_of_mem restart_of_token_eq_none h1
  obtain ⟨ph, k2⟩ := exists_of_mem phase_of_token_eq_none h2
  obtain ⟨rw, k3⟩ := exists_of_mem reward_of_token_eq_none h3
  refine ⟨r, ph, rw, ?_⟩
  rw [updt_params_eq_resolve]
  unfold resolve
  rw [k1, k2, k3, (gc_of_token_eq_none _).mpr h4]

/-- The outcome when `branching_heuristic` is the first option to hold no accepted
token. -/
theorem thrown_at_branching_heuristic {_p : params_ref}
    (h1 : _p.sat.restart ∈ restart_tokens) (h2 : _p.sat.phase ∈ phase_tokens)
    (h3 : _p.sat.lookahead_reward ∈ lookahead_reward_tokens) (h4 : _p.sat.gc ∈ gc_tokens)
    (h5 : _p.sat.branching_heuristic ∉ branching_heuristic_tokens)
    (mb : Nat → Nat) (c : config) :
    ∃ r ph rw g, updt_params mb _p c
      = outcome.thrown
          ⟨"invalid branching heuristic: accepted heuristics are 'vsids', 'lrb' or 'chb'"⟩
          (at_branching_heuristic mb _p c r ph rw g) := by
  obtain ⟨r, k1⟩ := exists_of_mem restart_of_token_eq_none h1
  obtain ⟨ph, k2⟩ := exists_of_mem phase_of_token_eq_none h2
  obtain ⟨rw, k3⟩ := exists_of_mem reward_of_token_eq_none h3
  obtain ⟨g, k4⟩ := exists_of_mem gc_of_token_eq_none h4
  refine ⟨r, ph, rw, g, ?_⟩
  rw [updt_params_eq_resolve]
  unfold resolve
  rw [k1, k2, k3, k4, (branching_of_token_eq_none _).mpr h5]

/-- The outcome when `pb_solver` is the only option to hold no accepted token. -/
theorem thrown_at_pb_solver {_p : params_ref}
    (h1 : _p.sat.restart ∈ restart_tokens) (h2 : _p.sat.phase ∈ phase_tokens)
    (h3 : _p.sat.lookahead_reward ∈ lookahead_reward_tokens) (h4 : _p.sat.gc ∈ gc_tokens)
    (h5 : _p.sat.branching_heuristic ∈ branching_heuristic_tokens)
    (h6 : _p.sat.pb_solver ∉ pb_solver_tokens) (mb : Nat → Nat) (c : config) :
    ∃ r ph rw g b, updt_params mb _p c
      = outcome.thrown ⟨"invalid PB solver: solver, totalizer, circuit, sorting"⟩
          (at_pb_solver mb _p c r ph rw g b) := by
  obtain ⟨r, k1⟩ := exists_of_mem restart_of_token_eq_none h1
  obtain ⟨ph, k2⟩ := exists_of_mem phase_of_token_eq_none h2
  obtain ⟨rw, k3⟩ := exists_of_mem reward_of_token_eq_none h3
  obtain ⟨g, k4⟩ := exists_of_mem gc_of_token_eq_none h4
  obtain ⟨b, k5⟩ := exists_of_mem branching_of_token_eq_none h5
  refine ⟨r, ph, rw, g, b, ?_⟩
  rw [updt_params_eq_resolve]
  unfold resolve
  rw [k1, k2, k3, k4, k5, (pb_of_token_eq_none _).mpr h6]

theorem restart_message_facts :
    occurs_in "restart" "invalid restart strategy" = true ∧
    ∀ t ∈ restart_tokens, occurs_in t "invalid restart strategy" = false := by
  decide

theorem phase_message_facts :
    occurs_in "phase" "invalid phase selection strategy" = true ∧
    ∀ t ∈ phase_tokens, occurs_in t "invalid phase selection strategy" = false := by
  decide

theorem reward_message_facts :
    occurs_in "reward"
      "invalid reward type supplied: accepted heuristics are 'ternary', 'heuleu', 'unit' or 'heule_schur'"
      = true ∧
    occurs_in "ternary"
      "invalid reward type supplied: accepted heuristics are 'ternary', 'heuleu', 'unit' or 'heule_schur'"
      = true ∧
    occurs_in "heuleu"
      "invalid reward type supplied: accepted heuristics are 'ternary', 'heuleu', 'unit' or 'heule_schur'"
      = true ∧
    occurs_in "unit"
      "invalid reward type supplied: accepted heuristics are 'ternary', 'heuleu', 'unit' or 'heule_schur'"
      = true ∧
    occurs_in "heule_schur"
      "invalid reward type supplied: accepted heuristics are 'ternary', 'heuleu', 'unit' or 'heule_schur'"
      = true := by
  decide

theorem gc_message_facts :
    occurs_in "gc" "invalid gc strategy" = true ∧
    ∀ t ∈ gc_tokens, occurs_in t "invalid gc strategy" = false := by
  decide

theorem branching_message_facts :
    occurs_in "branching heuristic"
      "invalid branching heuristic: accepted heuristics are 'vsids', 'lrb' or 'chb'" = true ∧
    ∀ t ∈ branching_heuristic_tokens,
      occurs_in t "invalid branching heuristic: accepted heuristics are 'vsids', 'lrb' or 'chb'"
        = true := by
  decide

theorem pb_message_facts :
    occurs_in "PB solver" "invalid PB solver: solver, totalizer, circuit, sorting" = true ∧
    ∀ t ∈ pb_solver_tokens,
      occurs_in t "invalid PB solver: solver, totalizer, circuit, sorting" = true := by
  decide

/-- C8, the claim as stated fails: with `restart` set to `bogus` the call throws
the message `invalid restart strategy`, in which neither `luby` nor `geometric`
occurs. -/
theorem restart_message_lists_no_token :
    (updt_params example_megabytes_to_bytes (scenario_with_restart "bogus")
      prior_config).exception = some ⟨"invalid restart strategy"⟩ ∧
    occurs_in "luby" (updt_params example_megabytes_to_bytes (scenario_with_restart "bogus")
      prior_config).message = false ∧
    occurs_in "geometric" (updt_params example_megabytes_to_bytes
      (scenario_with_restart "bogus") prior_config).message = false := by
  decide

/-- C8, amended: when `updt_params` fails on a family's option (the options checked
before it holding accepted tokens), it throws a message fixed per family that
names the family: `invalid restart strategy`, `invalid phase selection strategy`
and `invalid gc strategy`, in which no accepted token occurs; a message in which
`reward`, `ternary`, `heuleu`, `unit` and `heule_schur` occur, for
`lookahead_reward`; and for `branching_heuristic` and `pb_solver` a message in
which `branching heuristic`, respectively `PB solver`, and every accepted token
of the family occur. -/
theorem updt_params_failure_messages (mb : Nat → Nat) (_p : params_ref) (c : config) :
    (_p.sat.restart ∉ restart_tokens →
      (updt_params mb _p c).succeeds = false ∧
      (updt_params mb _p c).message = "invalid restart strategy" ∧
      occurs_in "restart" (updt_params mb _p c).message = true ∧
      ∀ t ∈ restart_tokens, occurs_in t (updt_params mb _p c).message = false) ∧
    (_p.sat.restart ∈ restart_tokens → _p.sat.phase ∉ phase_tokens →
      (updt_params mb _p c).succeeds = false ∧
      (updt_params mb _p c).message = "invalid phase selection strategy" ∧
      occurs_in "phase" (updt_params mb _p c).message = true ∧
      ∀ t ∈ phase_tokens, occurs_in t (updt_params mb _p c).message = false) ∧
    (_p.sat.restart ∈ restart_tokens → _p.sat.phase ∈ phase_tokens →
      _p.sat.lookahead_reward ∉ lookahead_reward_tokens →
      (updt_params mb _p c).succeeds = false ∧
      occurs_in "reward" (updt_params mb _p c).message = true ∧
      occurs_in "ternary" (updt_params mb _p c).message = true ∧
      occurs_in "heuleu" (updt_params mb _p c).message = true ∧
      occurs_in "unit" (updt_params mb _p c).message = true ∧
      occurs_in "heule_schur" (updt_params mb _p c).message = true) ∧
    (_p.sat.restart ∈ restart_tokens → _p.sat.phase ∈ phase_tokens →
      _p.sat.lookahead_reward ∈ lookahead_reward_tokens → _p.sat.gc ∉ gc_tokens →
      (updt_params mb _p c).succeeds = false ∧
      (updt_params mb _p c).message = "invalid gc strategy" ∧
      occurs_in "gc" (updt_params mb _p c).message = true ∧
      ∀ t ∈ gc_tokens, occurs_in t (updt_params mb _p c).message = false) ∧
    (_p.sat.restart ∈ restart_tokens → _p.sat.phase ∈ phase_tokens →
      _p.sat.lookahead_reward ∈ lookahead_reward_tokens → _p.sat.gc ∈ gc_tokens →
      _p.sat.branching_heuristic ∉ branching_heuristic_tokens →
      (updt_params mb _p c).succeeds = false ∧
      occurs_in "branching heuristic" (updt_params mb _p c).message = true ∧
      ∀ t ∈ branching_heuristic_tokens, occurs_in t (updt_params mb _p c).message = true) ∧
    (_p.sat.restart ∈ restart_tokens → _p.sat.phase ∈ phase_tokens →
      _p.sat.lookahead_reward ∈ lookahead_reward_tokens → _p.sat.gc ∈ gc_tokens →
      _p.sat.branching_heuristic ∈ branching_heuristic_tokens →
      _p.sat.pb_solver ∉ pb_solver_tokens →
      (updt_params mb _p c).succeeds = false ∧
      occurs_in "PB solver" (updt_params mb _p c).message = true ∧
      ∀ t ∈ pb_solver_tokens, occurs_in t (updt_params mb _p c).message = true) := by
  refine ⟨?_, ?_, ?_, ?_, ?_, ?_⟩
  · intro h1
    rw [thrown_at_restart h1]
    exact ⟨rfl, rfl, restart_message_facts.1, restart_message_facts.2⟩
  · intro h1 h2
    obtain ⟨r, e⟩ := thrown_at_phase h1 h2 mb c
    rw [e]
    exact ⟨rfl, rfl, phase_message_facts.1, phase_message_facts.2⟩
  · intro h1 h2 h3
    obtain ⟨r, ph, e⟩ := thrown_at_lookahead_reward h1 h2 h3 mb c
    rw [e]
    exact ⟨rfl, reward_message_facts⟩
  · intro h1 h2 h3 h4
    obtain ⟨r, ph, rw, e⟩ := thrown_at_gc h1 h2 h3 h4 mb c
    rw [e]
    exact ⟨rfl, rfl, gc_message_facts.1, gc_message_facts.2⟩
  · intro h1 h2 h3 h4 h5
    obtain ⟨r, ph, rw, g, e⟩ := thrown_at_branching_heuristic h1 h2 h3 h4 h5 mb c
    rw [e]
    exact ⟨rfl, branching_message_facts.1, branching_message_facts.2⟩
  · intro h1 h2 h3 h4 h5 h6
    obtain ⟨r, ph, rw, g, b, e⟩ := thrown_at_pb_solver h1 h2 h3 h4 h5 h6 mb c
    rw [e]
    exact ⟨rfl, pb_message_facts.1, pb_message_facts.2⟩

/-- C9: when `updt_params` fails on `branching_heuristic`, the message of the
exception contains each of `vsids`, `chb` and `lrb`; when it fails on
`pb_solver`, the message contains each of `circuit`, `sorting`, `totalizer` and
`solver`. -/
theorem updt_params_messages_echo_tokens (mb : Nat → Nat) (_p : params_ref) (c : config) :
    (_p.sat.restart ∈ restart_tokens → _p.sat.phase ∈ phase_tokens →
      _p.sat.lookahead_reward ∈ lookahead_reward_tokens → _p.sat.gc ∈ gc_tokens →
      _p.sat.branching_heuristic ∉ branching_heuristic_tokens →
      (updt_params mb _p c).exception
        = some ⟨"invalid branching heuristic: accepted heuristics are 'vsids', 'lrb' or 'chb'"⟩ ∧
      occurs_in "vsids" (updt_params mb _p c).message = true ∧
      occurs_in "chb" (updt_params mb _p c).message = true ∧
      occurs_in "lrb" (updt_params mb _p c).message = true) ∧
    (_p.sat.restart ∈ restart_tokens → _p.sat.phase ∈ phase_tokens →
      _p.sat.lookahead_reward ∈ lookahead_reward_tokens → _p.sat.gc ∈ gc_tokens →
      _p.sat.branching_heuristic ∈ branching_heuristic_tokens →
      _p.sat.pb_solver ∉ pb_solver_tokens →
      (updt_params mb _p c).exception
        = some ⟨"invalid PB solver: solver, totalizer, circuit, sorting"⟩ ∧
      occurs_in "circuit" (updt_params mb _p c).message = true ∧
      occurs_in "sorting" (updt_params mb _p c).message = true ∧
      occurs_in "totalizer" (updt_params mb _p c).message = true ∧
      occurs_in "solver" (updt_params mb _p c).message = true) := by
  refine ⟨?_, ?_⟩
  · intro h1 h2 h3 h4 h5
    obtain ⟨r, ph, rw, g, e⟩ := thrown_at_branching_heuristic h1 h2 h3 h4 h5 mb c
    rw [e]
    exact ⟨rfl, branching_message_facts.2 "vsids" (by decide),
      branching_message_facts.2 "chb" (by decide), branching_message_facts.2 "lrb" (by decide)⟩
  · intro h1 h2 h3 h4 h5 h6
    obtain ⟨r, ph, rw, g, b, e⟩ := thrown_at_pb_solver h1 h2 h3 h4 h5 h6 mb c
    rw [e]
    exact ⟨rfl, pb_message_facts.2 "circuit" (by decide), pb_message_facts.2 "sorting" (by decide),
      pb_message_facts.2 "totalizer" (by decide), pb_message_facts.2 "solver" (by decide)⟩

/-- C10: a call that returns normally re-derives the whole configuration from the
parameter source: run on any other prior configuration it returns normally too,
and the two resulting configurations agree on every field except
`m_incremental`, which keeps its prior value; running the call again on its own
result changes nothing. -/
theorem updt_params_full_rederivation (mb : Nat → Nat) (_p : params_ref) (c1 c2 : config)
    (h : (updt_params mb _p c1).succeeds = true) :
    (updt_params mb _p c2).succeeds = true ∧
    (updt_params mb _p c2).state
      = { (updt_params mb _p c1).state with m_incremental := c2.m_incremental } ∧
    (updt_params mb _p c1).state.m_incremental = c1.m_incremental ∧
    (updt_params mb _p c2).state.m_incremental = c2.m_incremental ∧
    updt_params mb _p (updt_params mb _p c1).state = updt_params mb _p c1 := by
  obtain ⟨r, ph, rw, g, b, pb, -, -, -, -, -, -, hrun⟩ := succeeds_inv h
  refine ⟨?_, ?_, ?_, ?_, ?_⟩
  · rw [hrun]; rfl
  · rw [hrun mb c1, hrun mb c2]; rfl
  · rw [hrun]; rfl
  · rw [hrun]; rfl
  · rw [hrun mb c1, hrun]; rfl

/-- C10 at the scenario's input, run on two different prior configurations. -/
theorem updt_params_full_rederivation_scenario :
    (updt_params example_megabytes_to_bytes scenario_params other_config).succeeds = true ∧
    (updt_params example_megabytes_to_bytes scenario_params other_config).state
      = { (updt_params example_megabytes_to_bytes scenario_params prior_config).state with
          m_incremental := other_config.m_incremental } ∧
    (updt_params example_megabytes_to_bytes scenario_params prior_config).state.m_incremental
      = prior_config.m_incremental ∧
    (updt_params example_megabytes_to_bytes scenario_params other_config).state.m_incremental
      = other_config.m_incremental ∧
    updt_params example_megabytes_to_bytes scenario_params
        (updt_params example_megabytes_to_bytes scenario_params prior_config).state
      = updt_params example_megabytes_to_bytes scenario_params prior_config :=
  updt_params_full_rederivation example_megabytes_to_bytes scenario_params prior_config
    other_config (by decide)

theorem block_single (s : stmt) (c : config) : block [s] c = s c := by
  show (match s c with
    | outcome.returned c' => block [] c'
    | outcome.thrown e c' => outcome.thrown e c') = s c
  cases s c <;> rfl

/-- No path through `updt_params` writes `m_incremental`. -/
theorem resolve_incremental (mb : Nat → Nat) (_p : params_ref) (c : config) :
    (resolve mb _p c).state.m_incremental = c.m_incremental := by
  unfold resolve
  cases restart_of_token _p.sat.restart with
  | none => rfl
  | some r =>
  cases phase_of_token _p.sat.phase with
  | none => rfl
  | some ph =>
  cases reward_of_token _p.sat.lookahead_reward with
  | none => rfl
  | some rw =>
  cases gc_of_token _p.sat.gc with
  | none => rfl
  | some g =>
  cases branching_of_token _p.sat.branching_heuristic with
  | none => rfl
  | some b =>
  cases pb_of_token _p.sat.pb_solver with
  | none => rfl
  | some pb => rfl

/-- C11: the constructor sets `m_incremental` to false and then runs
`updt_params`; `updt_params` never changes `m_incremental`, whether it returns
normally or throws, so the flag after the call is the flag before it, and
after the constructor it is false. -/
theorem updt_params_keeps_incremental (mb : Nat → Nat) (_p : params_ref) (c : config) :
    (updt_params mb _p c).state.m_incremental = c.m_incremental ∧
    config_ctor mb _p c = updt_params mb _p { c with m_incremental := false } ∧
    (config_ctor mb _p c).state.m_incremental = false := by
  have hctor : config_ctor mb _p c = updt_params mb _p { c with m_incremental := false } := by
    unfold config_ctor
    rw [block_assign, block_single]
  refine ⟨?_, hctor, ?_⟩
  · rw [updt_params_eq_resolve]
    exact resolve_incremental mb _p c
  · rw [hctor, updt_params_eq_resolve]
    exact resolve_incremental mb _p _

/-- C12: after a call that returns normally the five branching constants are the
literals 0.40, 0.000001, 0.06, 0.9 and 1000000.0, whatever the parameter source
and the prior configuration are; replacing the raw entries by any others gives
the same five values. -/
theorem updt_params_branching_constants (mb : Nat → Nat) (_p : params_ref) (c : config)
    (h : (updt_params mb _p c).succeeds = true) :
    ((updt_params mb _p c).state.m_step_size_init = 0.40 ∧
     (updt_params mb _p c).state.m_step_size_dec = 0.000001 ∧
     (updt_params mb _p c).state.m_step_size_min = 0.06 ∧
     (updt_params mb _p c).state.m_reward_multiplier = 0.9 ∧
     (updt_params mb _p c).state.m_reward_offset = 1000000.0) ∧
    (∀ es : List (String × param_value),
      (updt_params mb { _p with entries := es } c).succeeds = true ∧
      (updt_params mb { _p with entries := es } c).state.m_step_size_init = 0.40 ∧
      (updt_params mb { _p with entries := es } c).state.m_step_size_dec = 0.000001 ∧
      (updt_params mb { _p with entries := es } c).state.m_step_size_min = 0.06 ∧
      (updt_params mb { _p with entries := es } c).state.m_reward_multiplier = 0.9 ∧
      (updt_params mb { _p with entries := es } c).state.m_reward_offset = 1000000.0) := by
  have key : ∀ (_q : params_ref), (updt_params mb _q c).succeeds = true →
      (updt_params mb _q c).state.m_step_size_init = 0.40 ∧
      (updt_params mb _q c).state.m_step_size_dec = 0.000001 ∧
      (updt_params mb _q c).state.m_step_size_min = 0.06 ∧
      (updt_params mb _q c).state.m_reward_multiplier = 0.9 ∧
      (updt_params mb _q c).state.m_reward_offset = 1000000.0 := by
    intro _q hq
    obtain ⟨r, ph, rw, g, b, pb, -, -, -, -, -, -, hrun⟩ := succeeds_inv hq
    rw [hrun]
    exact ⟨rfl, rfl, rfl, rfl, rfl⟩
  refine ⟨key _p h, ?_⟩
  intro es
  have hes : (updt_params mb { _p with entries := es } c).succeeds = true :=
    (succeeds_iff_accepted mb _ c).mpr ((succeeds_iff_accepted mb _p c).mp h)
  exact ⟨hes, key _ hes⟩

/-- C12 at a concrete input: raw entries named after the five constants do not
change them. -/
theorem updt_params_branching_constants_example :
    (updt_params example_megabytes_to_bytes
      (scenario_with_entries [("step_size_init", param_value.double_value 0.9),
        ("reward_offset", param_value.double_value 1)])
      other_config).state.m_step_size_init = 0.40 ∧
    (updt_params example_megabytes_to_bytes
      (scenario_with_entries [("step_size_init", param_value.double_value 0.9),
        ("reward_offset", param_value.double_value 1)])
      other_config).state.m_step_size_dec = 0.000001 ∧
    (updt_params example_megabytes_to_bytes
      (scenario_with_entries [("step_size_init", param_value.double_value 0.9),
        ("reward_offset", param_value.double_value 1)])
      other_config).state.m_step_size_min = 0.06 ∧
    (updt_params example_megabytes_to_bytes
      (scenario_with_entries [("step_size_init", param_value.double_value 0.9),
        ("reward_offset", param_value.double_value 1)])
      other_config).state.m_reward_multiplier = 0.9 ∧
    (updt_params example_megabytes_to_bytes
      (scenario_with_entries [("step_size_init", param_value.double_value 0.9),
        ("reward_offset", param_value.double_value 1)])
      other_config).state.m_reward_offset = 1000000.0 :=
  (updt_params_branching_constants example_megabytes_to_bytes
    (scenario_with_entries [("step_size_init", param_value.double_value 0.9),
      ("reward_offset", param_value.double_value 1)])
    other_config (by decide)).1

/-- C13: the `threads` option influences only the thread count and the
proof-logging flag: when a call returns normally, the call on a source that
differs from it only in `threads` (the typed value, and possibly a raw entry
stored under the key `threads`) returns normally too, and its configuration is
the first one with `m_num_threads` and `m_drat` recomputed; every other field,
the six enumerated variants among them, is the same. -/
theorem updt_params_threads_influence (mb : Nat → Nat) (_p _q : params_ref) (c : config)
    (t : Nat) (h : (updt_params mb _p c).succeeds = true)
    (hsat : _q.sat = { _p.sat with threads := t })
    (hsimp : _q.sat_simplifier = _p.sat_simplifier)
    (huint : ∀ k, k ≠ "threads" → stored_uint _q.entries k = stored_uint _p.entries k)
    (hdouble : ∀ k, k ≠ "threads" → stored_double _q.entries k = stored_double _p.entries k) :
    (updt_params mb _q c).succeeds = true ∧
    (updt_params mb _q c).state =
      { (updt_params mb _p c).state with
        m_num_threads := t
        m_drat := (_p.sat.drat_check_unsat || _p.sat.drat_file != "" || _p.sat.drat_check_sat)
                    && t == 1 } ∧
    (updt_params mb _q c).state.m_restart = (updt_params mb _p c).state.m_restart ∧
    (updt_params mb _q c).state.m_phase = (updt_params mb _p c).state.m_phase ∧
    (updt_params mb _q c).state.m_lookahead_reward
      = (updt_params mb _p c).state.m_lookahead_reward ∧
    (updt_params mb _q c).state.m_gc_strategy = (updt_params mb _p c).state.m_gc_strategy ∧
    (updt_params mb _q c).state.m_branching_heuristic
      = (updt_params mb _p c).state.m_branching_heuristic ∧
    (updt_params mb _q c).state.m_pb_solver = (updt_params mb _p c).state.m_pb_solver := by
  obtain ⟨r, ph, rw, g, b, pb, h1, h2, h3, h4, h5, h6, hrun⟩ := succeeds_inv h
  obtain ⟨qe, qs, qsimp⟩ := _q
  simp only at hsat hsimp huint hdouble
  subst hsat hsimp
  have hq : updt_params mb ⟨qe, { _p.sat with threads := t }, _p.sat_simplifier⟩ c
      = outcome.returned (at_return mb ⟨qe, { _p.sat with threads := t }, _p.sat_simplifier⟩
          c r ph rw g b pb) :=
    @returned_of_tokens ⟨qe, { _p.sat with threads := t }, _p.sat_simplifier⟩ r ph rw g b pb
      h1 h2 h3 h4 h5 h6 mb c
  have u1 : stored_uint qe "random_seed" = stored_uint _p.entries "random_seed" :=
    huint _ (by decide)
  have u2 : stored_uint qe "simplify_mult1" = stored_uint _p.entries "simplify_mult1" :=
    huint _ (by decide)
  have u3 : stored_uint qe "simplify_max" = stored_uint _p.entries "simplify_max" :=
    huint _ (by decide)
  have d1 : stored_double qe "simplify_mult2" = stored_double _p.entries "simplify_mult2" :=
    hdouble _ (by decide)
  have hst : (outcome.returned (at_return mb
        ⟨qe, { _p.sat with threads := t }, _p.sat_simplifier⟩ c r ph rw g b pb)).state =
      { (outcome.returned (at_return mb _p c r ph rw g b pb)).state with
        m_num_threads := t
        m_drat := (_p.sat.drat_check_unsat || _p.sat.drat_file != "" || _p.sat.drat_check_sat)
                    && t == 1 } := by
    simp only [outcome.state, at_return, at_pb_solver, at_branching_heuristic, at_gc,
      at_lookahead_reward, at_phase, at_restart, resolved_random_seed, params_ref.get_uint,
      params_ref.get_double, u1, u2, u3, d1]
  rw [hq, hrun mb c]
  refine ⟨rfl, hst, rfl, rfl, rfl, rfl, rfl, rfl⟩

/-- C13 at the scenario's input: raising `threads` from 1 to 4 turns `m_drat` from
true to false and leaves the six enumerated variants as they were. -/
theorem updt_params_threads_influence_scenario :
    (updt_params example_megabytes_to_bytes scenario_params prior_config).state.m_drat = true ∧
    (updt_params example_megabytes_to_bytes (scenario_with_threads 4) prior_config).succeeds
      = true ∧
    (updt_params example_megabytes_to_bytes (scenario_with_threads 4) prior_config).state =
      { (updt_params example_megabytes_to_bytes scenario_params prior_config).state with
        m_num_threads := 4
        m_drat := false } ∧
    (updt_params example_megabytes_to_bytes (scenario_with_threads 4) prior_config).state.m_restart
      = RS_GEOMETRIC ∧
    (updt_params example_megabytes_to_bytes (scenario_with_threads 4) prior_config).state.m_phase
      = PS_CACHING ∧
    (updt_params example_megabytes_to_bytes (scenario_with_threads 4)
      prior_config).state.m_lookahead_reward = unit_literal_reward ∧
    (updt_params example_megabytes_to_bytes (scenario_with_threads 4)
      prior_config).state.m_gc_strategy = GC_GLUE ∧
    (updt_params example_megabytes_to_bytes (scenario_with_threads 4)
      prior_config).state.m_branching_heuristic = BH_LRB ∧
    (updt_params example_megabytes_to_bytes (scenario_with_threads 4)
      prior_config).state.m_pb_solver = PB_SORTING :=
  ⟨rfl, updt_params_threads_influence example_megabytes_to_bytes scenario_params
    (scenario_with_threads 4) prior_config 4 (by decide) rfl rfl (fun _ _ => rfl)
    (fun _ _ => rfl)⟩

/-- C14: `updt_params` stops at the first unaccepted token in the order `restart`,
`phase`, `lookahead_reward`, `gc`, `branching_heuristic`, `pb_solver`: the
exception thrown is the one of the earliest option whose token is not accepted,
whatever the later options hold (with `restart` and `pb_solver` both unaccepted
it is the restart exception, with `lookahead_reward` and `gc` both unaccepted
the reward exception), and a failing call carries exactly one exception. -/
theorem updt_params_first_failure (mb : Nat → Nat) (_p : params_ref) (c : config) :
    (_p.sat.restart ∉ restart_tokens →
      (updt_params mb _p c).exception = some ⟨"invalid restart strategy"⟩) ∧
    (_p.sat.restart ∈ restart_tokens → _p.sat.phase ∉ phase_tokens →
      (updt_params mb _p c).exception = some ⟨"invalid phase selection strategy"⟩) ∧
    (_p.sat.restart ∈ restart_tokens → _p.sat.phase ∈ phase_tokens →
      _p.sat.lookahead_reward ∉ lookahead_reward_tokens →
      (updt_params mb _p c).exception
        = some ⟨"invalid reward type supplied: accepted heuristics are 'ternary', 'heuleu', 'unit' or 'heule_schur'"⟩) ∧
    (_p.sat.restart ∈ restart_tokens → _p.sat.phase ∈ phase_tokens →
      _p.sat.lookahead_reward ∈ lookahead_reward_tokens → _p.sat.gc ∉ gc_tokens →
      (updt_params mb _p c).exception = some ⟨"invalid gc strategy"⟩) ∧
    (_p.sat.restart ∈ restart_tokens → _p.sat.phase ∈ phase_tokens →
      _p.sat.lookahead_reward ∈ lookahead_reward_tokens → _p.sat.gc ∈ gc_tokens →
      _p.sat.branching_heuristic ∉ branching_heuristic_tokens →
      (updt_params mb _p c).exception
        = some ⟨"invalid branching heuristic: accepted heuristics are 'vsids', 'lrb' or 'chb'"⟩) ∧
    (_p.sat.restart ∈ restart_tokens → _p.sat.phase ∈ phase_tokens →
      _p.sat.lookahead_reward ∈ lookahead_reward_tokens → _p.sat.gc ∈ gc_tokens →
      _p.sat.branching_heuristic ∈ branching_heuristic_tokens →
      _p.sat.pb_solver ∉ pb_solver_tokens →
      (updt_params mb _p c).exception
        = some ⟨"invalid PB solver: solver, totalizer, circuit, sorting"⟩) ∧
    (_p.sat.restart ∉ restart_tokens → _p.sat.pb_solver ∉ pb_solver_tokens →
      (updt_params mb _p c).exception = some ⟨"invalid restart strategy"⟩) ∧
    (_p.sat.restart ∈ restart_tokens → _p.sat.phase ∈ phase_tokens →
      _p.sat.lookahead_reward ∉ lookahead_reward_tokens → _p.sat.gc ∉ gc_tokens →
      (updt_params mb _p c).exception
        = some ⟨"invalid reward type supplied: accepted heuristics are 'ternary', 'heuleu', 'unit' or 'heule_schur'"⟩) ∧
    (¬ accepted _p.sat → ∃! e, (updt_params mb _p c).exception = some e) ∧
    (updt_params example_megabytes_to_bytes (scenario_with_restart_pb_solver "bogus" "nope")
      prior_config).exception = some ⟨"invalid restart strategy"⟩ ∧
    (updt_params example_megabytes_to_bytes (scenario_with_lookahead_reward_gc "bogus" "nope")
      prior_config).exception
      = some ⟨"invalid reward type supplied: accepted heuristics are 'ternary', 'heuleu', 'unit' or 'heule_schur'"⟩ := by
  have e1 : _p.sat.restart ∉ restart_tokens →
      (updt_params mb _p c).exception = some ⟨"invalid restart strategy"⟩ := by
    intro h1
    rw [thrown_at_restart h1]
    rfl
  have e3 : _p.sat.restart ∈ restart_tokens → _p.sat.phase ∈ phase_tokens →
      _p.sat.lookahead_reward ∉ lookahead_reward_tokens →
      (updt_params mb _p c).exception
        = some ⟨"invalid reward type supplied: accepted heuristics are 'ternary', 'heuleu', 'unit' or 'heule_schur'"⟩ := by
    intro h1 h2 h3
    obtain ⟨r, ph, e⟩ := thrown_at_lookahead_reward h1 h2 h3 mb c
    rw [e]
    rfl
  refine ⟨e1, ?_, e3, ?_, ?_, ?_, fun h1 _ => e1 h1, fun h1 h2 h3 _ => e3 h1 h2 h3, ?_,
    rfl, rfl⟩
  · intro h1 h2
    obtain ⟨r, e⟩ := thrown_at_phase h1 h2 mb c
    rw [e]
    rfl
  · intro h1 h2 h3 h4
    obtain ⟨r, ph, rw, e⟩ := thrown_at_gc h1 h2 h3 h4 mb c
    rw [e]
    rfl
  · intro h1 h2 h3 h4 h5
    obtain ⟨r, ph, rw, g, e⟩ := thrown_at_branching_heuristic h1 h2 h3 h4 h5 mb c
    rw [e]
    rfl
  · intro h1 h2 h3 h4 h5 h6
    obtain ⟨r, ph, rw, g, b, e⟩ := thrown_at_pb_solver h1 h2 h3 h4 h5 h6 mb c
    rw [e]
    rfl
  · intro hn
    obtain ⟨e, c', he⟩ := thrown_of_not_succeeds
      (fun hs => hn ((succeeds_iff_accepted mb _p c).mp hs))
    rw [he]
    exact ⟨e, rfl, fun e' he' => (Option.some.inj he').symm⟩

/-- The outcome at the `phase` check, from the token tables. -/
theorem thrown_of_tokens_phase {_p : params_ref} {r : restart_strategy}
    (k1 : restart_of_token _p.sat.restart = some r) (k2 : phase_of_token _p.sat.phase = none)
    (mb : Nat → Nat) (c : config) :
    updt_params mb _p c
      = outcome.thrown ⟨"invalid phase selection strategy"⟩ (at_phase mb _p c r) := by
  rw [updt_params_eq_resolve]
  unfold resolve
  rw [k1, k2]

/-- The outcome at the `lookahead_reward` check, from the token tables. -/
theorem thrown_of_tokens_lookahead_reward {_p : params_ref} {r : restart_strategy}
    {ph : phase_selection} (k1 : restart_of_token _p.sat.restart = some r)
    (k2 : phase_of_token _p.sat.phase = some ph)
    (k3 : reward_of_token _p.sat.lookahead_reward = none) (mb : Nat → Nat) (c : config) :
    updt_params mb _p c
      = outcome.thrown
          ⟨"invalid reward type supplied: accepted heuristics are 'ternary', 'heuleu', 'unit' or 'heule_schur'"⟩
          (at_lookahead_reward mb _p c r ph) := by
  rw [updt_params_eq_resolve]
  unfold resolve
  rw [k1, k2, k3]

/-- The outcome at the `gc` check, from the token tables. -/
theorem thrown_of_tokens_gc {_p : params_ref} {r : restart_strategy} {ph : phase_selection}
    {rw : reward_t} (k1 : restart_of_token _p.sat.restart = some r)
    (k2 : phase_of_token _p.sat.phase = some ph)
    (k3 : reward_of_token _p.sat.lookahead_reward = some rw)
    (k4 : gc_of_token _p.sat.gc = none) (mb : Nat → Nat) (c : config) :
    updt_params mb _p c = outcome.thrown ⟨"invalid gc strategy"⟩ (at_gc mb _p c r ph rw) := by
  rw [updt_params_eq_resolve]
  unfold resolve
  rw [k1, k2, k3, k4]

/-- The outcome at the `branching_heuristic` check, from the token tables. -/
theorem thrown_of_tokens_branching_heuristic {_p : params_ref} {r : restart_strategy}
    {ph : phase_selection} {rw : reward_t} {g : gc_strategy}
    (k1 : restart_of_token _p.sat.restart = some r)
    (k2 : phase_of_token _p.sat.phase = some ph)
    (k3 : reward_of_token _p.sat.lookahead_reward = some rw)
    (k4 : gc_of_token _p.sat.gc = some g)
    (k5 : branching_of_token _p.sat.branching_heuristic = none) (mb : Nat → Nat) (c : config) :
    updt_params mb _p c
      = outcome.thrown
          ⟨"invalid branching heuristic: accepted heuristics are 'vsids', 'lrb' or 'chb'"⟩
          (at_branching_heuristic mb _p c r ph rw g) := by
  rw [updt_params_eq_resolve]
  unfold resolve
  rw [k1, k2, k3, k4, k5]

/-- The outcome at the `pb_solver` check, from the token tables. -/
theorem thrown_of_tokens_pb_solver {_p : params_ref} {r : restart_strategy}
    {ph : phase_selection} {rw : reward_t} {g : gc_strategy} {b : branching_heuristic}
    (k1 : restart_of_token _p.sat.restart = some r)
    (k2 : phase_of_token _p.sat.phase = some ph)
    (k3 : reward_of_token _p.sat.lookahead_reward = some rw)
    (k4 : gc_of_token _p.sat.gc = some g)
    (k5 : branching_of_token _p.sat.branching_heuristic = some b)
    (k6 : pb_of_token _p.sat.pb_solver = none) (mb : Nat → Nat) (c : config) :
    updt_params mb _p c
      = outcome.thrown ⟨"invalid PB solver: solver, totalizer, circuit, sorting"⟩
          (at_pb_solver mb _p c r ph rw g b) := by
  rw [updt_params_eq_resolve]
  unfold resolve
  rw [k1, k2, k3, k4, k5, k6]

/-- C15: a failing `updt_params` rolls nothing back and writes nothing past the
failure point. When it fails on `restart`, `phase`, `lookahead_reward`, `gc` or
`pb_solver`, the configuration it leaves is the prior one with exactly the
fields assigned before that check set from the new input (`at_restart`,
`at_phase`, `at_lookahead_reward`, `at_gc`, `at_pb_solver`): the checked
option's own enum field and every field assigned later, such as `m_elim_vars`
and (for the first four) `m_gc_k`, hold their prior values. A failure on
`restart` changes no field other than `m_max_memory`. -/
theorem updt_params_failure_state (mb : Nat → Nat) (_p : params_ref) (c : config) :
    (_p.sat.restart ∉ restart_tokens →
      (updt_params mb _p c).succeeds = false ∧
      (updt_params mb _p c).state = { c with m_max_memory := mb _p.sat.max_memory } ∧
      (updt_params mb _p c).state.m_restart = c.m_restart ∧
      (updt_params mb _p c).state.m_gc_k = c.m_gc_k ∧
      (updt_params mb _p c).state.m_elim_vars = c.m_elim_vars) ∧
    (_p.sat.restart ∈ restart_tokens → _p.sat.phase ∉ phase_tokens →
      ∃ r, restart_of_token _p.sat.restart = some r ∧
      (updt_params mb _p c).succeeds = false ∧
      (updt_params mb _p c).state
        = { c with m_max_memory := mb _p.sat.max_memory, m_restart := r } ∧
      (updt_params mb _p c).state.m_phase = c.m_phase ∧
      (updt_params mb _p c).state.m_gc_k = c.m_gc_k ∧
      (updt_params mb _p c).state.m_elim_vars = c.m_elim_vars) ∧
    (_p.sat.restart ∈ restart_tokens → _p.sat.phase ∈ phase_tokens →
      _p.sat.lookahead_reward ∉ lookahead_reward_tokens →
      ∃ r ph, restart_of_token _p.sat.restart = some r ∧
      phase_of_token _p.sat.phase = some ph ∧
      (updt_params mb _p c).succeeds = false ∧
      (updt_params mb _p c).state = at_lookahead_reward mb _p c r ph ∧
      (updt_params mb _p c).state.m_num_threads = _p.sat.threads ∧
      (updt_params mb _p c).state.m_lookahead_reward = c.m_lookahead_reward ∧
      (updt_params mb _p c).state.m_simplify_max = c.m_simplify_max ∧
      (updt_params mb _p c).state.m_gc_k = c.m_gc_k ∧
      (updt_params mb _p c).state.m_elim_vars = c.m_elim_vars) ∧
    (_p.sat.restart ∈ restart_tokens → _p.sat.phase ∈ phase_tokens →
      _p.sat.lookahead_reward ∈ lookahead_reward_tokens → _p.sat.gc ∉ gc_tokens →
      ∃ r ph rw, restart_of_token _p.sat.restart = some r ∧
      phase_of_token _p.sat.phase = some ph ∧
      reward_of_token _p.sat.lookahead_reward = some rw ∧
      (updt_params mb _p c).succeeds = false ∧
      (updt_params mb _p c).state = at_gc mb _p c r ph rw ∧
      (updt_params mb _p c).state.m_simplify_max = _p.get_uint "simplify_max" 500000 ∧
      (updt_params mb _p c).state.m_gc_strategy = c.m_gc_strategy ∧
      (updt_params mb _p c).state.m_gc_k = c.m_gc_k ∧
      (updt_params mb _p c).state.m_drat = c.m_drat ∧
      (updt_params mb _p c).state.m_elim_vars = c.m_elim_vars) ∧
    (_p.sat.restart ∈ restart_tokens → _p.sat.phase ∈ phase_tokens →
      _p.sat.lookahead_reward ∈ lookahead_reward_tokens → _p.sat.gc ∈ gc_tokens →
      _p.sat.branching_heuristic ∈ branching_heuristic_tokens →
      _p.sat.pb_solver ∉ pb_solver_tokens →
      ∃ r ph rw g b, restart_of_token _p.sat.restart = some r ∧
      phase_of_token _p.sat.phase = some ph ∧
      reward_of_token _p.sat.lookahead_reward = some rw ∧
      gc_of_token _p.sat.gc = some g ∧
      branching_of_token _p.sat.branching_heuristic = some b ∧
      (updt_params mb _p c).succeeds = false ∧
      (updt_params mb _p c).state = at_pb_solver mb _p c r ph rw g b ∧
      (updt_params mb _p c).state.m_gc_k = min 255 _p.sat.gc_k ∧
      (updt_params mb _p c).state.m_variable_decay = _p.sat.variable_decay ∧
      (updt_params mb _p c).state.m_pb_solver = c.m_pb_solver ∧
      (updt_params mb _p c).state.m_elim_vars = c.m_elim_vars) := by
  refine ⟨?_, ?_, ?_, ?_, ?_⟩
  · intro h1
    rw [thrown_at_restart h1]
    exact ⟨rfl, rfl, rfl, rfl, rfl⟩
  · intro h1 h2
    obtain ⟨r, k1⟩ := exists_of_mem restart_of_token_eq_none h1
    rw [thrown_of_tokens_phase k1 ((phase_of_token_eq_none _).mpr h2)]
    exact ⟨r, k1, rfl, rfl, rfl, rfl, rfl⟩
  · intro h1 h2 h3
    obtain ⟨r, k1⟩ := exists_of_mem restart_of_token_eq_none h1
    obtain ⟨ph, k2⟩ := exists_of_mem phase_of_token_eq_none h2
    rw [thrown_of_tokens_lookahead_reward k1 k2 ((reward_of_token_eq_none _).mpr h3)]
    exact ⟨r, ph, k1, k2, rfl, rfl, rfl, rfl, rfl, rfl, rfl⟩
  · intro h1 h2 h3 h4
    obtain ⟨r, k1⟩ := exists_of_mem restart_of_token_eq_none h1
    obtain ⟨ph, k2⟩ := exists_of_mem phase_of_token_eq_none h2
    obtain ⟨rw, k3⟩ := exists_of_mem reward_of_token_eq_none h3
    rw [thrown_of_tokens_gc k1 k2 k3 ((gc_of_token_eq_none _).mpr h4)]
    exact ⟨r, ph, rw, k1, k2, k3, rfl, rfl, rfl, rfl, rfl, rfl, rfl⟩
  · intro h1 h2 h3 h4 h5 h6
    obtain ⟨r, k1⟩ := exists_of_mem restart_of_token_eq_none h1
    obtain ⟨ph, k2⟩ := exists_of_mem phase_of_token_eq_none h2
    obtain ⟨rw, k3⟩ := exists_of_mem reward_of_token_eq_none h3
    obtain ⟨g, k4⟩ := exists_of_mem gc_of_token_eq_none h4
    obtain ⟨b, k5⟩ := exists_of_mem branching_of_token_eq_none h5
    rw [thrown_of_tokens_pb_solver k1 k2 k3 k4 k5 ((pb_of_token_eq_none _).mpr h6)]
    exact ⟨r, ph, rw, g, b, k1, k2, k3, k4, k5, rfl, rfl, rfl, rfl, rfl, rfl⟩

/-- C16: a failure on `branching_heuristic` overwrites the field being validated.
For every prior configuration, if `restart`, `phase`, `lookahead_reward` and
`gc` hold accepted tokens and `branching_heuristic` does not, `updt_params`
throws and leaves `m_branching_heuristic = BH_VSIDS`, while
`m_anti_exploration`, the five step-size and reward constants,
`m_variable_decay`, `m_pb_solver` and `m_elim_vars` keep their prior values. A
failure on any of the other five options leaves that option's own field at its
prior value. -/
theorem updt_params_branching_failure_overwrites (mb : Nat → Nat) (_p : params_ref)
    (c : config) (h1 : _p.sat.restart ∈ restart_tokens) (h2 : _p.sat.phase ∈ phase_tokens)
    (h3 : _p.sat.lookahead_reward ∈ lookahead_reward_tokens) (h4 : _p.sat.gc ∈ gc_tokens)
    (h5 : _p.sat.branching_heuristic ∉ branching_heuristic_tokens) :
    ((updt_params mb _p c).succeeds = false ∧
     (updt_params mb _p c).state.m_branching_heuristic = BH_VSIDS ∧
     (updt_params mb _p c).state.m_anti_exploration = c.m_anti_exploration ∧
     (updt_params mb _p c).state.m_step_size_init = c.m_step_size_init ∧
     (updt_params mb _p c).state.m_step_size_dec = c.m_step_size_dec ∧
     (updt_params mb _p c).state.m_step_size_min = c.m_step_size_min ∧
     (updt_params mb _p c).state.m_reward_multiplier = c.m_reward_multiplier ∧
     (updt_params mb _p c).state.m_reward_offset = c.m_reward_offset ∧
     (updt_params mb _p c).state.m_variable_decay = c.m_variable_decay ∧
     (updt_params mb _p c).state.m_pb_solver = c.m_pb_solver ∧
     (updt_params mb _p c).state.m_elim_vars = c.m_elim_vars) ∧
    (∀ _q : params_ref,
      (_q.sat.restart ∉ restart_tokens →
        (updt_params mb _q c).state.m_restart = c.m_restart) ∧
      (_q.sat.restart ∈ restart_tokens → _q.sat.phase ∉ phase_tokens →
        (updt_params mb _q c).state.m_phase = c.m_phase) ∧
      (_q.sat.restart ∈ restart_tokens → _q.sat.phase ∈ phase_tokens →
        _q.sat.lookahead_reward ∉ lookahead_reward_tokens →
        (updt_params mb _q c).state.m_lookahead_reward = c.m_lookahead_reward) ∧
      (_q.sat.restart ∈ restart_tokens → _q.sat.phase ∈ phase_tokens →
        _q.sat.lookahead_reward ∈ lookahead_reward_tokens → _q.sat.gc ∉ gc_tokens →
        (updt_params mb _q c).state.m_gc_strategy = c.m_gc_strategy) ∧
      (_q.sat.restart ∈ restart_tokens → _q.sat.phase ∈ phase_tokens →
        _q.sat.lookahead_reward ∈ lookahead_reward_tokens → _q.sat.gc ∈ gc_tokens →
        _q.sat.branching_heuristic ∈ branching_heuristic_tokens →
        _q.sat.pb_solver ∉ pb_solver_tokens →
        (updt_params mb _q c).state.m_pb_solver = c.m_pb_solver)) := by
  refine ⟨?_, ?_⟩
  · obtain ⟨r, ph, rw, g, e⟩ := thrown_at_branching_heuristic h1 h2 h3 h4 h5 mb c
    rw [e]
    exact ⟨rfl, rfl, rfl, rfl, rfl, rfl, rfl, rfl, rfl, rfl, rfl⟩
  · intro _q
    refine ⟨?_, ?_, ?_, ?_, ?_⟩
    · intro q1
      rw [thrown_at_restart q1]
      rfl
    · intro q1 q2
      obtain ⟨r, e⟩ := thrown_at_phase q1 q2 mb c
      rw [e]
      rfl
    · intro q1 q2 q3
      obtain ⟨r, ph, e⟩ := thrown_at_lookahead_reward q1 q2 q3 mb c
      rw [e]
      rfl
    · intro q1 q2 q3 q4
      obtain ⟨r, ph, rw, e⟩ := thrown_at_gc q1 q2 q3 q4 mb c
      rw [e]
      rfl
    · intro q1 q2 q3 q4 q5 q6
      obtain ⟨r, ph, rw, g, b, e⟩ := thrown_at_pb_solver q1 q2 q3 q4 q5 q6 mb c
      rw [e]
      rfl

/-- C16 at concrete inputs: from a prior configuration with `BH_LRB`, and from one
with `BH_CHB`, a call with the token `bogus` throws and leaves `BH_VSIDS`. -/
theorem updt_params_branching_failure_overwrites_examples :
    lrb_config.m_branching_heuristic = BH_LRB ∧
    (updt_params example_megabytes_to_bytes (scenario_with_branching_heuristic "bogus")
      lrb_config).succeeds = false ∧
    (updt_params example_megabytes_to_bytes (scenario_with_branching_heuristic "bogus")
      lrb_config).state.m_branching_heuristic = BH_VSIDS ∧
    other_config.m_branching_heuristic = BH_CHB ∧
    (updt_params example_megabytes_to_bytes (scenario_with_branching_heuristic "bogus")
      other_config).state.m_branching_heuristic = BH_VSIDS ∧
    (updt_params example_megabytes_to_bytes (scenario_with_branching_heuristic "bogus")
      other_config).state.m_pb_solver = other_config.m_pb_solver :=
  ⟨rfl,
   (updt_params_branching_failure_overwrites example_megabytes_to_bytes
      (scenario_with_branching_heuristic "bogus") lrb_config (by decide) (by decide)
      (by decide) (by decide) (by decide)).1.1,
   (updt_params_branching_failure_overwrites example_megabytes_to_bytes
      (scenario_with_branching_heuristic "bogus") lrb_config (by decide) (by decide)
      (by decide) (by decide) (by decide)).1.2.1,
   rfl,
   (updt_params_branching_failure_overwrites example_megabytes_to_bytes
      (scenario_with_branching_heuristic "bogus") other_config (by decide) (by decide)
      (by decide) (by decide) (by decide)).1.2.1,
   (updt_params_branching_failure_overwrites example_megabytes_to_bytes
      (scenario_with_branching_heuristic "bogus") other_config (by decide) (by decide)
      (by decide) (by decide) (by decide)).1.2.2.2.2.2.2.2.2.2.1⟩

/-- C17: a failing update does not preserve the consistency of the proof-logging
flag with the stored thread count. The configuration produced by a normal
return on the scenario (`threads=1`, `drat_check_unsat=true`, so `m_drat` is
true and the proof-logging equation holds), updated with a source holding
`threads=4`, accepted `restart`, `phase` and `lookahead_reward` tokens and an
unaccepted `gc` token, makes `updt_params` throw and leaves `m_num_threads = 4`
together with `m_drat = true`: the proof-logging equation no longer holds. -/
theorem failing_update_breaks_drat_consistency :
    ∃ (p0 p1 : params_ref) (c0 : config),
      p0.sat.threads = 1 ∧ p0.sat.drat_check_unsat = true ∧
      (updt_params example_megabytes_to_bytes p0 c0).succeeds = true ∧
      (updt_params example_megabytes_to_bytes p0 c0).state.m_drat = true ∧
      drat_consistent (updt_params example_megabytes_to_bytes p0 c0).state = true ∧
      p1.sat.threads = 4 ∧ p1.sat.restart ∈ restart_tokens ∧ p1.sat.phase ∈ phase_tokens ∧
      p1.sat.lookahead_reward ∈ lookahead_reward_tokens ∧ p1.sat.gc ∉ gc_tokens ∧
      (updt_params example_megabytes_to_bytes p1
        (updt_params example_megabytes_to_bytes p0 c0).state).succeeds = false ∧
      (updt_params example_megabytes_to_bytes p1
        (updt_params example_megabytes_to_bytes p0 c0).state).state.m_num_threads = 4 ∧
      (updt_params example_megabytes_to_bytes p1
        (updt_params example_megabytes_to_bytes p0 c0).state).state.m_drat = true ∧
      (updt_params example_megabytes_to_bytes p1
        (updt_params example_megabytes_to_bytes p0 c0).state).state.m_drat ≠
        (((updt_params example_megabytes_to_bytes p1
            (updt_params example_megabytes_to_bytes p0 c0).state).state.m_drat_check_unsat ||
          (updt_params example_megabytes_to_bytes p1
            (updt_params example_megabytes_to_bytes p0 c0).state).state.m_drat_file != "" ||
          (updt_params example_megabytes_to_bytes p1
            (updt_params example_megabytes_to_bytes p0 c0).state).state.m_drat_check_sat) &&
         (updt_params example_megabytes_to_bytes p1
            (updt_params example_megabytes_to_bytes p0 c0).state).state.m_num_threads == 1) ∧
      drat_consistent (updt_params example_megabytes_to_bytes p1
        (updt_params example_megabytes_to_bytes p0 c0).state).state = false := by
  refine ⟨scenario_params, scenario_with_threads_gc 4 "bogus", prior_config, ?_⟩
  decide

end sat
